import Mathlib

/-!
Shallow embedding of the GradientInfill G-code post-processor
(repository WatchingWatches/GradientInfill).

The repository contains three near-duplicate engines:
  * `src/OrcaGradientInfill.py`            (the "Orca" variant),
  * `src/Universal/universal_addGradientinfill.py` (the "Universal" variant),
  * `src/Prusa/prusa_addGradientinfill.py` (the "Prusa" variant).

Python strings are modelled as `List Char`; Python floats are modelled as
real numbers (exact arithmetic); Python exceptions (`SyntaxError`,
`ValueError`, `NameError`, `ZeroDivisionError`, `TypeError`) are modelled by
an `Except PyErr` result.  Where the source formats a number into an output
line we keep the unrounded value (string formatting with `round(_, 3)` /
`round(_, 5)` is presentation only and is not part of any claim here, except
for the feedrate value of `control_flow`, which is modelled by `round3`).
-/

namespace GradientInfill

/-- A G-code line, modelled as its character sequence (Python `str`). -/
abbrev Line := List Char

/-- Python exception kinds raised by the engines. -/
inductive PyErr where
  | syntaxErr
  | valueErr
  | nameErr
  | zeroDivErr
  | typeErr
  deriving DecidableEq, Repr

/-- Python `line.startswith(prefix)`. -/
def startswith (l p : Line) : Bool :=
  p.isPrefixOf l

/-- Python `sub in l` (substring containment). -/
def substr (sub l : Line) : Bool :=
  decide (sub <:+: l)

/-- Lift an `Option` to `Except`, raising the given error on `none`
(models Python raising on an empty `min`, a format of an unbound name, ...). -/
def ofOption (e : PyErr) : Option α → Except PyErr α
  | some a => .ok a
  | none => .error e

/-- Numeric value of a digit string (used by the model of Python `float`). -/
def digitsVal (l : Line) : ℕ :=
  l.foldl (fun acc c => 10 * acc + (c.toNat - '0'.toNat)) 0

/-- Model of Python `float(s)` restricted to optionally signed decimal
literals (the only shapes produced by the G-code regex captures and the
settings comments).  Returns `none` where Python raises `ValueError`
(in particular on the empty string and on a bare dot). -/
def pyFloatCore (l : Line) : Option ℚ :=
  let ip := l.takeWhile Char.isDigit
  let r := l.dropWhile Char.isDigit
  match r with
  | [] => if ip.isEmpty then none else some (digitsVal ip)
  | '.' :: fr =>
      if fr.all Char.isDigit ∧ (ip.isEmpty = false ∨ fr.isEmpty = false) then
        some ((digitsVal ip : ℚ) + (digitsVal fr : ℚ) / 10 ^ fr.length)
      else none
  | _ => none

/-- Model of Python `float(s)`: strips surrounding spaces, allows one
leading minus sign. -/
def pyFloat (l : Line) : Option ℚ :=
  let t := (l.dropWhile (· = ' ')).reverse.dropWhile (· = ' ') |>.reverse
  match t with
  | '-' :: r => (pyFloatCore r).map (fun q => -q)
  | _ => pyFloatCore t

/-- Greedy match of the regex fragment `\d*\.?\d*` (the capture group of
`X(\d*\.?\d*)`, `Y(...)` and `F(...)`). -/
def takeNumGroup (l : Line) : Line :=
  let d1 := l.takeWhile Char.isDigit
  let r1 := l.dropWhile Char.isDigit
  match r1 with
  | '.' :: r2 => d1 ++ '.' :: r2.takeWhile Char.isDigit
  | _ => d1

/-- Model of `re.search(r"C(\d*\.?\d*)", line)` for a marker character `C`
(`X`, `Y` or `F`): the match anchors at the first occurrence of `C` and the
group may be empty.  Returns the captured group, or `none` when `C` does not
occur (the regex fails to match). -/
def searchGroup (c : Char) : Line → Option Line
  | [] => none
  | a :: rest => if a = c then some (takeNumGroup rest) else searchGroup c rest

/-- Python `currentLine.split(" ")`. -/
def splitOnSpace (l : Line) : List Line :=
  let rec go : Line → Line → List Line
    | acc, [] => [acc.reverse]
    | acc, c :: rest => if c = ' ' then acc.reverse :: go [] rest else go (c :: acc) rest
  go [] l

end GradientInfill

namespace GradientInfill

/-- A 2D point (`Point2D = namedtuple('Point2D', 'x y')`). -/
structure Point2D where
  x : ℝ
  y : ℝ

/-- A segment (`Segment = namedtuple('Segment', 'point1 point2')`). -/
structure Segment where
  point1 : Point2D
  point2 : Point2D

/-- The infill pattern (`class InfillType(Enum)`). -/
inductive InfillType where
  | SMALL_SEGMENTS
  | LINEAR
  deriving DecidableEq, Repr

/-- The section state (`class Section(Enum)`). -/
inductive Section where
  | NOTHING
  | INNER_WALL
  | INFILL
  deriving DecidableEq, Repr

/-- `dist(segment, point)` of the Orca and Universal variants
(`OrcaGradientInfill.py` lines 50-64, `universal_addGradientinfill.py`
lines 81-109): distance from a point to a finite segment, where the
`ZeroDivisionError` on a degenerate segment is caught and `0` returned. -/
noncomputable def dist (segment : Segment) (point : Point2D) : ℝ :=
  let px := segment.point2.x - segment.point1.x
  let py := segment.point2.y - segment.point1.y
  let norm := px * px + py * py
  if norm = 0 then 0
  else
    let u := ((point.x - segment.point1.x) * px + (point.y - segment.point1.y) * py) / norm
    let u := max 0 (min 1 u)
    let x := segment.point1.x + u * px
    let y := segment.point1.y + u * py
    let dx := x - point.x
    let dy := y - point.y
    Real.sqrt (dx * dx + dy * dy)

/-- `dist(segment, point)` of the Prusa variant
(`prusa_addGradientinfill.py` lines 96-119): same computation but with no
`try/except`, so a degenerate segment raises `ZeroDivisionError`
(modelled as `none`). -/
noncomputable def prusa_dist (segment : Segment) (point : Point2D) : Option ℝ :=
  let px := segment.point2.x - segment.point1.x
  let py := segment.point2.y - segment.point1.y
  let norm := px * px + py * py
  if norm = 0 then none
  else
    let u := ((point.x - segment.point1.x) * px + (point.y - segment.point1.y) * py) / norm
    let u := max 0 (min 1 u)
    let x := segment.point1.x + u * px
    let y := segment.point1.y + u * py
    let dx := x - point.x
    let dy := y - point.y
    some (Real.sqrt (dx * dx + dy * dy))

/-- `get_points_distance(point1, point2)`: Euclidean distance. -/
noncomputable def get_points_distance (point1 point2 : Point2D) : ℝ :=
  Real.sqrt ((point1.x - point2.x) ^ 2 + (point1.y - point2.y) ^ 2)

/-- Midpoint used by `min_distance_from_segment`. -/
noncomputable def middlePoint (segment : Segment) : Point2D :=
  ⟨(segment.point1.x + segment.point2.x) / 2, (segment.point1.y + segment.point2.y) / 2⟩

/-- `min_distance_from_segment(segment, segments)` of the Orca and Prusa
variants: `min(dist(s, middlePoint) for s in segments)`.  Python `min` of an
empty iterable raises `ValueError`, modelled as `none`. -/
noncomputable def min_distance_from_segment (segment : Segment) (segments : List Segment) :
    Option ℝ :=
  match segments with
  | [] => none
  | s :: rest =>
      some (rest.foldl (fun acc t => min acc (dist t (middlePoint segment))) (dist s (middlePoint segment)))

/-- Python `min(xs, key=f)`: first element attaining the minimum of `f`. -/
noncomputable def pyMinBy (f : Segment → ℝ) : Segment → List Segment → Segment
  | best, [] => best
  | best, s :: rest => if f s < f best then pyMinBy f s rest else pyMinBy f best rest

/-- `min_distance_from_segment(segment, segments, return_seg=True)` of the
Universal variant (lines 125-141): returns the minimal distance together
with the minimizing wall segment; `none` on an empty list (`ValueError`). -/
noncomputable def min_distance_from_segment_seg (segment : Segment) (segments : List Segment) :
    Option (ℝ × Segment) :=
  match segments with
  | [] => none
  | s :: rest =>
      let mseg := pyMinBy (fun t => dist t (middlePoint segment)) s rest
      some (dist mseg (middlePoint segment), mseg)

/-- `mapRange(a, b, s)` (identical in all variants):
`b1 + ((s - a1) * (b2 - b1) / (a2 - a1))`. -/
noncomputable def mapRange (a : ℝ × ℝ) (b : ℝ × ℝ) (s : ℝ) : ℝ :=
  b.1 + ((s - a.1) * (b.2 - b.1) / (a.2 - a.1))

/-- Python `round(x, 3)` (used for the feedrate of `control_flow`).
Rounding to the nearest multiple of `1/1000`; the half-to-even tie rule of
Python is irrelevant to every value considered here. -/
noncomputable def round3 (x : ℝ) : ℝ :=
  (round (1000 * x) : ℤ) / 1000

/-- The feedrate value `F` computed by `control_flow(hotend_max_flow,
extrusionLength, distance, d_f)` (identical formula in the Orca and
Universal variants); the emitted line is `"G1 F{F}\n"`. -/
noncomputable def control_flow (hotend_max_flow extrusionLength distance d_f : ℝ) : ℝ :=
  round3 ((hotend_max_flow * distance * 60 * 4) / (extrusionLength * d_f ^ 2 * Real.pi))

/-- `is_collinear(wall, p_0, p_1)` of the Universal variant (lines 330-357):
true when the angle between the infill segment and the wall segment (taking
the minimum with the 180-degree complement) is below 15 degrees; a
`ZeroDivisionError` (degenerate wall or infill segment) is caught and the
angle taken to be 0, hence the result `true`. -/
noncomputable def is_collinear (wall : Segment) (p_0 p_1 : Point2D) : Bool :=
  if get_points_distance wall.point1 wall.point2 = 0 ∨ get_points_distance p_0 p_1 = 0 then
    true
  else
    let v_wall : Point2D := ⟨wall.point2.x - wall.point1.x, wall.point2.y - wall.point1.y⟩
    let nw : Point2D := ⟨v_wall.x / get_points_distance wall.point1 wall.point2,
                         v_wall.y / get_points_distance wall.point1 wall.point2⟩
    let v_infill : Point2D := ⟨p_1.x - p_0.x, p_1.y - p_0.y⟩
    let ni : Point2D := ⟨v_infill.x / get_points_distance p_0 p_1,
                         v_infill.y / get_points_distance p_0 p_1⟩
    let dp := max (-1) (min 1 (nw.x * ni.x + nw.y * ni.y))
    let ndp := max (-1) (min 1 (-(nw.x * ni.x + nw.y * ni.y)))
    let angle := min |Real.arccos dp * (180 / Real.pi)| |Real.arccos ndp * (180 / Real.pi)|
    decide (angle < 15)

end GradientInfill

namespace GradientInfill

/-- Regex `^G[0-1].*X.*Y` (`prog_move`, identical in all variants). -/
def prog_move (l : Line) : Bool :=
  match l with
  | g :: c :: rest => decide (g = 'G' ∧ (c = '0' ∨ c = '1') ∧ List.Sublist ['X', 'Y'] rest)
  | _ => false

/-- Regex `^G1.*X.*Y.*E` (`prog_extrusion`, identical in all variants). -/
def prog_extrusion (l : Line) : Bool :=
  match l with
  | g :: c :: rest => decide (g = 'G' ∧ c = '1' ∧ List.Sublist ['X', 'Y', 'E'] rest)
  | _ => false

/-- `is_extrusion_line(line)`:
`"G1" in line and " X" in line and "Y" in line and "E" in line`. -/
def is_extrusion_line (l : Line) : Bool :=
  substr ('G' :: ['1']) l ∧ substr (' ' :: ['X']) l ∧ 'Y' ∈ l ∧ 'E' ∈ l

/-- `getXY(currentLine)` (identical in all variants): anchors the captures
of `X(\d*\.?\d*)` and `Y(\d*\.?\d*)` and converts them with `float`.
When either regex fails to match (no `X` or no `Y` in the line) the source
raises `SyntaxError`; when a capture is empty or malformed, the `float`
conversion raises `ValueError`. -/
def getXY (l : Line) : Except PyErr Point2D :=
  match searchGroup 'X' l, searchGroup 'Y' l with
  | some gx, some gy =>
      match pyFloat gx, pyFloat gy with
      | some x, some y => .ok ⟨(x : ℝ), (y : ℝ)⟩
      | _, _ => .error .valueErr
  | _, _ => .error .syntaxErr

/-- Orca marker: `is_begin_layer_line` = startswith `";LAYER_CHANGE"`
(same in the Prusa variant and the Universal variant for Orca/Prusa). -/
def is_begin_layer_line (l : Line) : Bool :=
  startswith l (";LAYER_CHANGE".toList)

/-- Orca marker: `is_begin_inner_wall_line` = startswith `";TYPE:Inner wall"`. -/
def is_begin_inner_wall_line (l : Line) : Bool :=
  startswith l (";TYPE:Inner wall".toList)

/-- Orca marker: `is_end_inner_wall_line` = startswith `";TYPE:Outer wall"`. -/
def is_end_inner_wall_line (l : Line) : Bool :=
  startswith l (";TYPE:Outer wall".toList)

/-- Orca marker: `is_begin_infill_segment_line` = startswith `";TYPE:Sparse infill"`. -/
def is_begin_infill_segment_line (l : Line) : Bool :=
  startswith l (";TYPE:Sparse infill".toList)

/-- Orca marker: `is_start_gcode` = startswith `";TYPE:Custom"`. -/
def is_start_gcode (l : Line) : Bool :=
  startswith l (";TYPE:Custom".toList)

/-- Regex `^;TYPE:` (`prog_type` of the Orca and Prusa variants, and of the
Universal variant for every slicer except Bambu). -/
def prog_type_matches (l : Line) : Bool :=
  startswith l (";TYPE:".toList)

/-- Prusa marker: `is_begin_inner_wall_line` = startswith `";TYPE:Perimeter"`. -/
def prusa_is_begin_inner_wall_line (l : Line) : Bool :=
  startswith l (";TYPE:Perimeter".toList)

/-- Prusa marker: `is_end_inner_wall_line` = startswith `";TYPE:External perimeter"`. -/
def prusa_is_end_inner_wall_line (l : Line) : Bool :=
  startswith l (";TYPE:External perimeter".toList)

/-- Prusa marker: `is_begin_infill_segment_line` = startswith `";TYPE:Internal infill"`. -/
def prusa_is_begin_infill_segment_line (l : Line) : Bool :=
  startswith l (";TYPE:Internal infill".toList)

end GradientInfill

namespace GradientInfill

/-- The run parameters of a single invocation (`process_gcode` arguments
plus the module constants of the respective variant). -/
structure Params where
  infill_type : InfillType
  max_flow : ℝ
  min_flow : ℝ
  gradient_thickness : ℝ
  gradientDiscretizationLength : ℝ
  hotend_max_flow : ℝ
  d_f : ℝ
  thin_inner_core : Bool

/-- An output line, at the structured level at which the engines emit them.
`raw l` is a verbatim append of the input line `l`; `feedStr sp` is
`"G1 F{sp}\n"` with the captured speed string `sp`; `feedF F` is the line
returned by `control_flow`; `move x y e` is `get_extrusion_command(x, y, e)`;
`rebuilt toks e` is the token-wise rebuild of the input line (tokens `toks`)
with the `E` token replaced by the value `e`. -/
inductive OutLine where
  | raw (l : Line)
  | feedStr (sp : Line)
  | feedF (F : ℝ)
  | move (x y e : ℝ)
  | rebuilt (toks : List Line) (e : ℝ)

/-- The geometric moves among a list of output lines (endpoint and
extrusion value of each emitted `get_extrusion_command`). -/
noncomputable def movesOf (out : List OutLine) : List (Point2D × ℝ) :=
  out.filterMap (fun o =>
    match o with
    | .move x y e => some (⟨x, y⟩, e)
    | _ => none)

/-- The flow factor applied to one LINEAR sub-segment
(`universal_addGradientinfill.py` lines 514-522, `OrcaGradientInfill.py`
lines 217-224, `prusa_addGradientinfill.py` lines 379-384): the gradient
interpolation below the gradient thickness, and `min_flow / 100` at or
beyond it.  Note that `thin_inner_core` plays no role here. -/
noncomputable def linear_flow_factor (gradient_thickness max_flow min_flow shortestDistance : ℝ) : ℝ :=
  if shortestDistance < gradient_thickness then
    mapRange (0, gradient_thickness) (max_flow / 100, min_flow / 100) shortestDistance
  else
    min_flow / 100

/-- Feed-override value of the LINEAR per-sub-segment call site
(`universal` line 527, `Orca` line 227):
`control_flow(hotend_max_flow, extrusionLengthPerSegment*flow_factor,
gradientDiscretizationLength, d_f)`. -/
noncomputable def linear_loop_feedF (p : Params) (extrusionLengthPerSegment flow_factor : ℝ) : ℝ :=
  control_flow p.hotend_max_flow (extrusionLengthPerSegment * flow_factor)
    p.gradientDiscretizationLength p.d_f

/-- Feed-override value of the LINEAR remainder call site
(`universal` line 541, `Orca` line 238):
`control_flow(hotend_max_flow, extrusionLength*max_flow/100, segmentLength, d_f)`. -/
noncomputable def linear_remainder_feedF (p : Params) (extrusionLength segmentLength : ℝ) : ℝ :=
  control_flow p.hotend_max_flow (extrusionLength * p.max_flow / 100) segmentLength p.d_f

/-- Feed-override value of the unsplit (`segmentSteps < 2`) LINEAR call site
(`universal` line 568, `Orca` line 252): note that the `distance` argument
passed is `segmentSteps` (a dimensionless step count), not the move length:
`control_flow(hotend_max_flow, extrusionLength*max_flow/100, segmentSteps, d_f)`. -/
noncomputable def linear_nosplit_feedF (p : Params) (extrusionLength segmentSteps : ℝ) : ℝ :=
  control_flow p.hotend_max_flow (extrusionLength * p.max_flow / 100) segmentSteps p.d_f

/-- Feed-override value of the SMALL_SEGMENTS call site of the Universal
variant (line 614): `control_flow(hotend_max_flow, newE, segmentLength, d_f)`
where `newE` is the already-scaled emitted extrusion. -/
noncomputable def universal_small_segments_feedF (p : Params) (newE segmentLength : ℝ) : ℝ :=
  control_flow p.hotend_max_flow newE segmentLength p.d_f

/-- Feed-override value of the SMALL_SEGMENTS call site of the Orca variant
(line 283): `control_flow(hotend_max_flow, newE * flow_factor, segmentLength,
d_f)` — `newE` is already `E * flow_factor`, so the flow factor is applied a
second time here. -/
noncomputable def orca_small_segments_feedF (p : Params) (newE flow_factor segmentLength : ℝ) : ℝ :=
  control_flow p.hotend_max_flow (newE * flow_factor) segmentLength p.d_f

/-- The feed-override formula as the specification states it:
`F = hotend_max_flow * moveLength * 60 * 4 /
(scaledExtrusionLength * filament_diameter^2 * pi)`, rounded to 3 decimals,
where `scaledExtrusionLength` is the move's already-scaled emitted extrusion
length.  This definition follows the words of the spec (section 4.5) and of
claim C3, for comparison with the source call sites above. -/
noncomputable def spec_feed_override (hotend_max_flow moveLength scaledExtrusionLength filament_diameter : ℝ) : ℝ :=
  round3 (hotend_max_flow * moveLength * 60 * 4 /
    (scaledExtrusionLength * filament_diameter ^ 2 * Real.pi))

end GradientInfill

namespace GradientInfill

/-- What precedes an emitted infill move: nothing, a feed line at the
slicer's original feed (`"G1 F{infill_speed}\n"`), or a feed-override line
computed by `control_flow`. -/
inductive FeedEmit where
  | noFeed
  | original
  | override
  deriving DecidableEq, Repr

/-- The per-move feed decision of the Universal variant (lines 526-534 and
611-623): on an over-limit move emit the override and clear `is_old_speed`;
otherwise emit nothing when `is_old_speed` is set, else emit the original
feed and set `is_old_speed`.  Arguments: `over` = `current_flow >
hotend_max_flow`, second argument = `is_old_speed`; returns the emission and
the new `is_old_speed`. -/
def universal_feed_step (over is_old_speed : Bool) : FeedEmit × Bool :=
  if over then (.override, false)
  else if is_old_speed then (.noFeed, true)
  else (.original, true)

/-- The per-move feed decision of the Orca variant (lines 226-233 and
281-289): identical to the Universal one except that the over-limit branch
leaves `is_old_speed` unchanged. -/
def orca_feed_step (over is_old_speed : Bool) : FeedEmit × Bool :=
  if over then (.override, is_old_speed)
  else if is_old_speed then (.noFeed, true)
  else (.original, true)

/-- Iterate a feed decision over a run of moves, each move described by its
over-limit flag; returns the emission preceding each move. -/
def feedRun (step : Bool → Bool → FeedEmit × Bool) : Bool → List Bool → List FeedEmit
  | _, [] => []
  | s, over :: rest =>
      let (e, s') := step over s
      e :: feedRun step s' rest

/-- Render a feed decision into output lines.  The `original` emission
formats the captured `infill_speed` string; when that name was never bound
the source raises `NameError`. -/
def feedEmitLines : FeedEmit → ℝ → Option Line → Except PyErr (List OutLine)
  | .override, F, _ => .ok [.feedF F]
  | .noFeed, _, _ => .ok []
  | .original, _, none => .error .nameErr
  | .original, _, some sp => .ok [.feedStr sp]

/-- `for element in splitLine: if "E" in element: extrusionLength =
float(element[1:])` — the last `E` token wins; a failed conversion raises
`ValueError`; `none` when no token contains `E` (the name stays unbound). -/
def findExtrusionLength (toks : List Line) : Except PyErr (Option ℝ) :=
  toks.foldlM (fun acc t =>
    if 'E' ∈ t then
      match pyFloat t.tail with
      | some v => .ok (some ((v : ℚ) : ℝ))
      | none => .error .valueErr
    else .ok acc) none

/-- The subdivision loop of the LINEAR handler (`OrcaGradientInfill.py`
lines 209-234, `universal_addGradientinfill.py` lines 507-536),
parametrized by the variant's feed decision `fstep`.  Each iteration
advances by `segmentDirection`, evaluates the nearest wall distance at the
sub-segment, applies `linear_flow_factor`, runs the feed decision and emits
the sub-move. -/
noncomputable def linearLoop (fstep : Bool → Bool → FeedEmit × Bool) (p : Params)
    (perim : List Segment) (infill_flowV : ℝ) (infill_speed : Option Line)
    (extrusionLengthPerSegment : ℝ) (segmentDirection : Point2D) :
    Point2D → Bool → ℕ → Except PyErr (Point2D × Bool × List OutLine)
  | pos, flag, 0 => .ok (pos, flag, [])
  | pos, flag, n + 1 => do
    let segmentEnd : Point2D := ⟨pos.x + segmentDirection.x, pos.y + segmentDirection.y⟩
    let shortestDistance ← ofOption .valueErr (min_distance_from_segment ⟨pos, segmentEnd⟩ perim)
    let flow_factor := linear_flow_factor p.gradient_thickness p.max_flow p.min_flow shortestDistance
    let segmentExtrusion := extrusionLengthPerSegment * flow_factor
    let current_flow := infill_flowV * flow_factor
    let (fe, flag2) := fstep (decide (p.hotend_max_flow < current_flow)) flag
    let feedLines ← feedEmitLines fe (linear_loop_feedF p extrusionLengthPerSegment flow_factor) infill_speed
    let (endPos, flag3, rest) ← linearLoop fstep p perim infill_flowV infill_speed
        extrusionLengthPerSegment segmentDirection segmentEnd flag2 n
    .ok (endPos, flag3, feedLines ++ OutLine.move segmentEnd.x segmentEnd.y segmentExtrusion :: rest)

/-- The LINEAR infill handler shared by the Orca variant (lines 193-259,
`fstep = orca_feed_step`, `resetBegin = false`: the Orca source does not
reset `infill_begin` in its true branch) and the Universal variant (lines
489-573, `fstep = universal_feed_step`, `resetBegin = true`).  Takes the
persistent locals `lastPosition`, `is_old_speed`, `infill_speed`,
`infill_begin`, `infill_flow` (an unbound Python local is `none`), the
parsed `currentPosition` and the split line; returns their new values and
the emitted lines.  `ZeroDivisionError` is raised where the source divides
by a zero float (a zero `gradientDiscretizationLength`, or a zero-length
move making `segmentSteps` zero). -/
noncomputable def linearHandler (fstep : Bool → Bool → FeedEmit × Bool) (resetBegin : Bool)
    (p : Params) (perim : List Segment)
    (lastPosition : Point2D) (is_old_speed : Bool) (infill_speed : Option Line)
    (infill_begin : Option Bool) (infill_flow : Option ℝ)
    (currentPosition : Point2D) (splitLine : List Line) :
    Except PyErr (Point2D × Bool × Option Bool × Option ℝ × List OutLine) := do
  let extrusionLengthOpt ← findExtrusionLength splitLine
  let segmentLength := get_points_distance lastPosition currentPosition
  if p.gradientDiscretizationLength = 0 then .error .zeroDivErr else
  let segmentSteps := segmentLength / p.gradientDiscretizationLength
  let extrusionLength ← ofOption .nameErr extrusionLengthOpt
  if segmentSteps = 0 then .error .zeroDivErr else
  let extrusionLengthPerSegment := extrusionLength / segmentSteps
  let segmentDirection : Point2D :=
    ⟨(currentPosition.x - lastPosition.x) / segmentLength * p.gradientDiscretizationLength,
     (currentPosition.y - lastPosition.y) / segmentLength * p.gradientDiscretizationLength⟩
  let bf ←
    match infill_begin with
    | none => Except.error PyErr.nameErr
    | some true => do
        let sp ← ofOption .nameErr infill_speed
        let v ← ofOption .valueErr (pyFloat sp)
        Except.ok (some (!resetBegin), some ((((v : ℚ) : ℝ) * p.d_f ^ 2 * Real.pi * extrusionLength) / (4 * segmentLength * 60)))
    | some false => Except.ok ((some false : Option Bool), infill_flow)
  let infill_begin2 := bf.1
  let infill_flow2 := bf.2
  if 2 ≤ segmentSteps then do
    let iflowVal ← ofOption .nameErr infill_flow2
    let (endPos, flag2, out) ← linearLoop fstep p perim iflowVal infill_speed
        extrusionLengthPerSegment segmentDirection lastPosition is_old_speed (⌊segmentSteps⌋.toNat)
    let segmentLengthRatio := get_points_distance endPos currentPosition / segmentLength
    let current_flow := iflowVal * p.max_flow / 100
    let remMove : OutLine := .move currentPosition.x currentPosition.y
        (segmentLengthRatio * extrusionLength * p.max_flow / 100)
    let rem : List OutLine :=
      if p.hotend_max_flow < current_flow then
        [.feedF (linear_remainder_feedF p extrusionLength segmentLength), remMove]
      else [remMove]
    Except.ok (endPos, flag2, infill_begin2, infill_flow2, out ++ rem)
  else do
    let iflowVal ← ofOption .nameErr infill_flow2
    let current_flow := iflowVal * p.max_flow / 100
    let base : OutLine := .rebuilt splitLine (extrusionLength * p.max_flow / 100)
    let outLines :=
      if p.hotend_max_flow < current_flow then
        [.feedF (linear_nosplit_feedF p extrusionLength segmentSteps), base]
      else [base]
    Except.ok (lastPosition, is_old_speed, infill_begin2, infill_flow2, outLines)

/-- The LINEAR infill handler of the Orca variant (lines 193-259). -/
noncomputable def orcaLinear (p : Params) (perim : List Segment)
    (lastPosition : Point2D) (is_old_speed : Bool) (infill_speed : Option Line)
    (infill_begin : Option Bool) (infill_flow : Option ℝ)
    (currentPosition : Point2D) (splitLine : List Line) :
    Except PyErr (Point2D × Bool × Option Bool × Option ℝ × List OutLine) :=
  linearHandler orca_feed_step false p perim lastPosition is_old_speed infill_speed
    infill_begin infill_flow currentPosition splitLine

/-- The LINEAR infill handler of the Universal variant (lines 489-573). -/
noncomputable def universalLinear (p : Params) (perim : List Segment)
    (lastPosition : Point2D) (is_old_speed : Bool) (infill_speed : Option Line)
    (infill_begin : Option Bool) (infill_flow : Option ℝ)
    (currentPosition : Point2D) (splitLine : List Line) :
    Except PyErr (Point2D × Bool × Option Bool × Option ℝ × List OutLine) :=
  linearHandler universal_feed_step true p perim lastPosition is_old_speed infill_speed
    infill_begin infill_flow currentPosition splitLine

end GradientInfill

namespace GradientInfill

/-- The `E`-token loop of the Orca SMALL_SEGMENTS near branch (lines
265-279).  The running state is `(flow_factor, newE, infill_begin,
infill_flow)`, each `none` while the Python local is unbound; the last `E`
token wins.  Inside the `infill_begin` branch the original infill flow is
computed (Orca does not reset `infill_begin` there); a zero-length move
raises `ZeroDivisionError`, an unparsable value `ValueError`, an unbound
`infill_speed` or `infill_begin` a `NameError`. -/
noncomputable def orcaSmallTokens (p : Params) (lastPosition currentPosition : Point2D)
    (infill_speed : Option Line) (shortestDistance : ℝ) :
    (Option ℝ × Option ℝ × Option Bool × Option ℝ) → List Line →
    Except PyErr (Option ℝ × Option ℝ × Option Bool × Option ℝ)
  | st, [] => .ok st
  | (ff, newE, ibegin, iflow), t :: rest =>
      if 'E' ∈ t then do
        let flow_factor := mapRange (0, p.gradient_thickness) (p.max_flow / 100, p.min_flow / 100)
            shortestDistance
        let ev ← ofOption .valueErr (pyFloat t.tail)
        let newEv := ((ev : ℚ) : ℝ) * flow_factor
        let bf ←
          match ibegin with
          | none => Except.error PyErr.nameErr
          | some true => do
              let segmentLength := get_points_distance lastPosition currentPosition
              let sp ← ofOption .nameErr infill_speed
              let v ← ofOption .valueErr (pyFloat sp)
              if segmentLength = 0 then Except.error PyErr.zeroDivErr else
              Except.ok ((some true : Option Bool),
                some ((((v : ℚ) : ℝ) * p.d_f ^ 2 * Real.pi * ((ev : ℚ) : ℝ)) / (4 * segmentLength * 60)))
          | some false => Except.ok ((some false : Option Bool), iflow)
        orcaSmallTokens p lastPosition currentPosition infill_speed shortestDistance
          (some flow_factor, some newEv, bf.1, bf.2) rest
      else
        orcaSmallTokens p lastPosition currentPosition infill_speed shortestDistance
          (ff, newE, ibegin, iflow) rest

/-- The `E`-token replacement of the thin-inner-core branch (`newE =
float(element[1:]) * min_flow / 100`, last token wins). -/
def smallThinEValue (toks : List Line) : Except PyErr (Option ℝ) :=
  toks.foldlM (fun acc t =>
    if 'E' ∈ t then
      match pyFloat t.tail with
      | some v => .ok (some ((v : ℚ) : ℝ))
      | none => .error .valueErr
    else .ok acc) none

/-- The SMALL_SEGMENTS infill handler of the Orca variant (lines 261-303).
Returns `(is_old_speed, infill_begin, infill_flow, emitted lines)`.  Note
that the Orca source sets `writtenToFile = True` unconditionally at the end
of this block, so a move at or beyond the gradient thickness with
`thin_inner_core` disabled emits nothing at all (the input line is
dropped); the caller accordingly treats every SMALL_SEGMENTS extrusion
line as written. -/
noncomputable def orcaSmall (p : Params) (perim : List Segment)
    (lastPosition : Point2D) (is_old_speed : Bool) (infill_speed : Option Line)
    (infill_begin : Option Bool) (infill_flow : Option ℝ)
    (currentPosition : Point2D) (splitLine : List Line) :
    Except PyErr (Bool × Option Bool × Option ℝ × List OutLine) := do
  let shortestDistance ← ofOption .valueErr
      (min_distance_from_segment ⟨lastPosition, currentPosition⟩ perim)
  if shortestDistance < p.gradient_thickness then do
    let st ← orcaSmallTokens p lastPosition currentPosition infill_speed shortestDistance
        (none, none, infill_begin, infill_flow) splitLine
    let flow_factor ← ofOption .nameErr st.1
    let newEv ← ofOption .nameErr st.2.1
    let iflowVal ← ofOption .nameErr st.2.2.2
    let current_flow := iflowVal * flow_factor
    let base : OutLine := .rebuilt splitLine newEv
    if p.hotend_max_flow < current_flow then
      let segmentLength := get_points_distance lastPosition currentPosition
      Except.ok (is_old_speed, st.2.2.1, st.2.2.2,
        [.feedF (orca_small_segments_feedF p newEv flow_factor segmentLength), base])
    else if is_old_speed then
      Except.ok (is_old_speed, st.2.2.1, st.2.2.2, [base])
    else do
      let sp ← ofOption .nameErr infill_speed
      Except.ok (true, st.2.2.1, st.2.2.2, [.feedStr sp, base])
  else if p.thin_inner_core then do
    let newEOpt ← smallThinEValue splitLine
    let newEv := (newEOpt.getD 0) * p.min_flow / 100
    Except.ok (is_old_speed, infill_begin, infill_flow, [.rebuilt splitLine newEv])
  else
    Except.ok (is_old_speed, infill_begin, infill_flow, [])

/-- The `E`-token loop of the Universal SMALL_SEGMENTS near branch (lines
586-610).  Differences from the Orca one: the collinearity guard (the flow
factor is forced to `1` when the move is within the critical distance of
its nearest wall and nearly parallel to it; an unbound line width raises
`NameError`), and `infill_begin` is reset to false after the original
infill flow is computed. -/
noncomputable def universalSmallTokens (p : Params) (lastPosition currentPosition : Point2D)
    (infill_speed : Option Line) (infill_linewidth inner_wall_linewidth : Option ℝ)
    (collinear : Bool) (shortestDistance : ℝ) :
    (Option ℝ × Option ℝ × Option Bool × Option ℝ) → List Line →
    Except PyErr (Option ℝ × Option ℝ × Option Bool × Option ℝ)
  | st, [] => .ok st
  | (ff, newE, ibegin, iflow), t :: rest =>
      if 'E' ∈ t then do
        let ff0 := mapRange (0, p.gradient_thickness) (p.max_flow / 100, p.min_flow / 100)
            shortestDistance
        let ilw ← ofOption .nameErr infill_linewidth
        let wlw ← ofOption .nameErr inner_wall_linewidth
        let critical_distance := (ilw + wlw) * 1.4 / 2
        let flow_factor :=
          if shortestDistance ≤ critical_distance ∧ collinear then (1 : ℝ) else ff0
        let ev ← ofOption .valueErr (pyFloat t.tail)
        let newEv := ((ev : ℚ) : ℝ) * flow_factor
        let bf ←
          match ibegin with
          | none => Except.error PyErr.nameErr
          | some true => do
              let segmentLength := get_points_distance lastPosition currentPosition
              let sp ← ofOption .nameErr infill_speed
              let v ← ofOption .valueErr (pyFloat sp)
              if segmentLength = 0 then Except.error PyErr.zeroDivErr else
              Except.ok ((some false : Option Bool),
                some ((((v : ℚ) : ℝ) * p.d_f ^ 2 * Real.pi * ((ev : ℚ) : ℝ)) / (4 * segmentLength * 60)))
          | some false => Except.ok ((some false : Option Bool), iflow)
        universalSmallTokens p lastPosition currentPosition infill_speed
          infill_linewidth inner_wall_linewidth collinear shortestDistance
          (some flow_factor, some newEv, bf.1, bf.2) rest
      else
        universalSmallTokens p lastPosition currentPosition infill_speed
          infill_linewidth inner_wall_linewidth collinear shortestDistance
          (ff, newE, ibegin, iflow) rest

/-- The SMALL_SEGMENTS infill handler of the Universal variant (lines
576-638).  Returns `(is_old_speed, infill_begin, infill_flow,
writtenToFile, emitted lines)`: with `thin_inner_core` disabled a far move
leaves `writtenToFile` at 0 and the input line later passes through
unchanged. -/
noncomputable def universalSmall (p : Params) (perim : List Segment)
    (lastPosition : Point2D) (is_old_speed : Bool) (infill_speed : Option Line)
    (infill_begin : Option Bool) (infill_flow : Option ℝ)
    (infill_linewidth inner_wall_linewidth : Option ℝ)
    (currentPosition : Point2D) (splitLine : List Line) :
    Except PyErr (Bool × Option Bool × Option ℝ × Bool × List OutLine) := do
  let seg_info ← ofOption .valueErr
      (min_distance_from_segment_seg ⟨lastPosition, currentPosition⟩ perim)
  let shortestDistance := seg_info.1
  let min_seg := seg_info.2
  let collinear := is_collinear min_seg lastPosition currentPosition
  if shortestDistance < p.gradient_thickness then do
    let st ← universalSmallTokens p lastPosition currentPosition infill_speed
        infill_linewidth inner_wall_linewidth collinear shortestDistance
        (none, none, infill_begin, infill_flow) splitLine
    let flow_factor ← ofOption .nameErr st.1
    let newEv ← ofOption .nameErr st.2.1
    let iflowVal ← ofOption .nameErr st.2.2.2
    let current_flow := iflowVal * flow_factor
    let base : OutLine := .rebuilt splitLine newEv
    if p.hotend_max_flow < current_flow then
      let segmentLength := get_points_distance lastPosition currentPosition
      Except.ok (false, st.2.2.1, st.2.2.2, true,
        [.feedF (universal_small_segments_feedF p newEv segmentLength), base])
    else if is_old_speed then
      Except.ok (is_old_speed, st.2.2.1, st.2.2.2, true, [base])
    else do
      let sp ← ofOption .nameErr infill_speed
      Except.ok (true, st.2.2.1, st.2.2.2, true, [.feedStr sp, base])
  else if p.thin_inner_core then do
    let newEOpt ← smallThinEValue splitLine
    let newEv := (newEOpt.getD 0) * p.min_flow / 100
    Except.ok (is_old_speed, infill_begin, infill_flow, true, [.rebuilt splitLine newEv])
  else
    Except.ok (is_old_speed, infill_begin, infill_flow, false, [])

end GradientInfill

namespace GradientInfill

/-- The subdivision loop of the Prusa LINEAR handler (lines 372-388): like
the shared loop but with no feed bookkeeping at all. -/
noncomputable def prusaLinearLoop (p : Params) (perim : List Segment)
    (extrusionLengthPerSegment : ℝ) (segmentDirection : Point2D) :
    Point2D → ℕ → Except PyErr (Point2D × List OutLine)
  | pos, 0 => .ok (pos, [])
  | pos, n + 1 => do
    let segmentEnd : Point2D := ⟨pos.x + segmentDirection.x, pos.y + segmentDirection.y⟩
    let shortestDistance ← ofOption .valueErr (min_distance_from_segment ⟨pos, segmentEnd⟩ perim)
    let segmentExtrusion := extrusionLengthPerSegment *
        linear_flow_factor p.gradient_thickness p.max_flow p.min_flow shortestDistance
    let (endPos, rest) ← prusaLinearLoop p perim extrusionLengthPerSegment segmentDirection segmentEnd n
    .ok (endPos, OutLine.move segmentEnd.x segmentEnd.y segmentExtrusion :: rest)

/-- The LINEAR infill handler of the Prusa variant (lines 359-408). -/
noncomputable def prusaLinear (p : Params) (perim : List Segment)
    (lastPosition currentPosition : Point2D) (splitLine : List Line) :
    Except PyErr (Point2D × List OutLine) := do
  let extrusionLengthOpt ← findExtrusionLength splitLine
  let segmentLength := get_points_distance lastPosition currentPosition
  if p.gradientDiscretizationLength = 0 then .error .zeroDivErr else
  let segmentSteps := segmentLength / p.gradientDiscretizationLength
  let extrusionLength ← ofOption .nameErr extrusionLengthOpt
  if segmentSteps = 0 then .error .zeroDivErr else
  let extrusionLengthPerSegment := extrusionLength / segmentSteps
  let segmentDirection : Point2D :=
    ⟨(currentPosition.x - lastPosition.x) / segmentLength * p.gradientDiscretizationLength,
     (currentPosition.y - lastPosition.y) / segmentLength * p.gradientDiscretizationLength⟩
  if 2 ≤ segmentSteps then do
    let (endPos, out) ← prusaLinearLoop p perim extrusionLengthPerSegment segmentDirection
        lastPosition (⌊segmentSteps⌋.toNat)
    let segmentLengthRatio := get_points_distance endPos currentPosition / segmentLength
    Except.ok (endPos, out ++ [OutLine.move currentPosition.x currentPosition.y
      (segmentLengthRatio * extrusionLength * p.max_flow / 100)])
  else
    Except.ok (lastPosition, [OutLine.rebuilt splitLine (extrusionLength * p.max_flow / 100)])

/-- The SMALL_SEGMENTS infill handler of the Prusa variant (lines 411-428):
the near branch rescales the `E` value; a far move is not handled at all
(`writtenToFile` stays 0, returned as the first component). -/
noncomputable def prusaSmall (p : Params) (perim : List Segment)
    (lastPosition currentPosition : Point2D) (splitLine : List Line) :
    Except PyErr (Bool × List OutLine) := do
  let shortestDistance ← ofOption .valueErr
      (min_distance_from_segment ⟨lastPosition, currentPosition⟩ perim)
  if shortestDistance < p.gradient_thickness then do
    let vOpt ← findExtrusionLength splitLine
    let newEv := (vOpt.getD 0) *
        mapRange (0, p.gradient_thickness) (p.max_flow / 100, p.min_flow / 100) shortestDistance
    Except.ok (true, [OutLine.rebuilt splitLine newEv])
  else
    Except.ok (false, [])

end GradientInfill

namespace GradientInfill

/-- Section transition of the Orca classifier on a `;TYPE:` marker line
(`OrcaGradientInfill.py` lines 160-167). -/
def orcaTypeSection (l : Line) : Section :=
  if is_begin_inner_wall_line l then .INNER_WALL
  else if is_end_inner_wall_line l then .NOTHING
  else if is_begin_infill_segment_line l then .INFILL
  else .NOTHING

/-- Section evolution of the Orca variant for one input line: only a
`;TYPE:` marker line changes the section (the source assigns
`currentSection` nowhere else). -/
def orcaSectionStep (currentSection : Section) (l : Line) : Section :=
  if prog_type_matches l then orcaTypeSection l else currentSection

/-- Per-run mutable state of the Orca variant (`process_gcode` locals).
An `Option` field is `none` while the Python local is unbound; the model
takes `perimeterSegments` as bound from the start (the source binds it at
the first layer-change marker and would raise `NameError` on a wall or
infill line before any such marker — that corner is not modelled). -/
structure OrcaState where
  ignore_pos : Bool
  is_old_speed : Bool
  currentSection : Section
  lastPosition : Point2D
  perimeterSegments : List Segment
  infill_speed : Option Line
  infill_begin : Option Bool
  infill_flow : Option ℝ

/-- Initial state of the Orca variant (lines 140-144). -/
def orcaInit : OrcaState :=
  { ignore_pos := true
    is_old_speed := false
    currentSection := .NOTHING
    lastPosition := ⟨-10000, -10000⟩
    perimeterSegments := []
    infill_speed := none
    infill_begin := none
    infill_flow := none }

/-- Wall-segment collection (`OrcaGradientInfill.py` lines 173-174, same in
the other variants): while in INNER_WALL, an extrusion line appends
`Segment(getXY(line), lastPosition)`. -/
noncomputable def orcaWallCollect (st0 : OrcaState) (l : Line) : Except PyErr OrcaState :=
  if st0.currentSection = Section.INNER_WALL ∧ is_extrusion_line l then do
    let pnt ← getXY l
    Except.ok { st0 with perimeterSegments := st0.perimeterSegments ++ [⟨pnt, st0.lastPosition⟩] }
  else Except.ok st0

/-- The infill speed-line branch of the Orca variant (lines 177-187): on a
line containing `F` and `G1`, capture the speed, set `infill_begin`; when
the line also contains `E`, emit a feed line and mark the line written. -/
noncomputable def orcaFBranch (st1 : OrcaState) (l : Line) :
    Except PyErr (OrcaState × List OutLine × Bool) :=
  if 'F' ∈ l ∧ substr ('G' :: ['1']) l then
    match searchGroup 'F' l with
    | some sp =>
        let stF := { st1 with infill_speed := some sp, infill_begin := some true }
        if 'E' ∈ l then Except.ok (stF, [OutLine.feedStr sp], true)
        else Except.ok (stF, ([] : List OutLine), false)
    | none => Except.error PyErr.syntaxErr
  else Except.ok (st1, ([] : List OutLine), false)

/-- The INFILL-section processing of the Orca variant (lines 176-303):
the speed-line branch followed, on an extrusion-pattern line, by the
LINEAR or SMALL_SEGMENTS handler.  Returns the updated state, the emitted
lines and the `writtenToFile` flag. -/
noncomputable def orcaInfillHandle (p : Params) (st1 : OrcaState) (l : Line) :
    Except PyErr (OrcaState × List OutLine × Bool) :=
  if st1.currentSection = Section.INFILL then do
    let r1 ← orcaFBranch st1 l
    if prog_extrusion l then do
      let cur ← getXY l
      match p.infill_type with
      | .LINEAR => do
          let res ← orcaLinear p r1.1.perimeterSegments r1.1.lastPosition r1.1.is_old_speed
              r1.1.infill_speed r1.1.infill_begin r1.1.infill_flow cur (splitOnSpace l)
          let stL := { r1.1 with lastPosition := res.1, is_old_speed := res.2.1, infill_begin := res.2.2.1, infill_flow := res.2.2.2.1 }
          Except.ok (stL, r1.2.1 ++ res.2.2.2.2, true)
      | .SMALL_SEGMENTS => do
          let res ← orcaSmall p r1.1.perimeterSegments r1.1.lastPosition r1.1.is_old_speed
              r1.1.infill_speed r1.1.infill_begin r1.1.infill_flow cur (splitOnSpace l)
          let stS := { r1.1 with is_old_speed := res.1, infill_begin := res.2.1, infill_flow := res.2.2.1 }
          Except.ok (stS, r1.2.1 ++ res.2.2.2, true)
    else Except.ok r1
  else Except.ok (st1, ([] : List OutLine), false)

/-- The position update (Orca lines 305-306): on a `G0`/`G1` move line,
while not inside start gcode, `lastPosition` becomes the line's `X`/`Y`. -/
noncomputable def orcaPosUpdate (st2 : OrcaState) (l : Line) : Except PyErr OrcaState :=
  if prog_move l ∧ st2.ignore_pos = false then do
    let pnt ← getXY l
    Except.ok { st2 with lastPosition := pnt }
  else Except.ok st2

/-- One iteration of the Orca main loop (`OrcaGradientInfill.py` lines
148-308) on one input line: returns the new state and the lines emitted for
this input line (the final `if not writtenToFile: lines.append(currentLine)`
pass-through included). -/
noncomputable def orcaStep (p : Params) (st : OrcaState) (l : Line) :
    Except PyErr (OrcaState × List OutLine) :=
  let st0 := if is_begin_layer_line l then { st with perimeterSegments := [] } else st
  if prog_type_matches l then
    Except.ok ({ st0 with ignore_pos := is_start_gcode l, currentSection := orcaTypeSection l },
      [OutLine.raw l])
  else do
    let st1 ← orcaWallCollect st0 l
    let r2 ← orcaInfillHandle p st1 l
    let st3 ← orcaPosUpdate r2.1 l
    if r2.2.2 then Except.ok (st3, r2.2.1) else Except.ok (st3, r2.2.1 ++ [OutLine.raw l])

end GradientInfill

namespace GradientInfill

/-- `class Slicer(Enum)` of the Universal variant. -/
inductive Slicer where
  | SEARCH
  | ORCA
  | BAMBU
  | PRUSA
  | CURA
  deriving DecidableEq, Repr

/-- Universal `is_begin_layer_line` (lines 209-223); for `SEARCH` the
Python function falls through and returns `None` (falsy). -/
def u_is_begin_layer_line (sl : Slicer) (l : Line) : Bool :=
  match sl with
  | .ORCA | .PRUSA => startswith l (";LAYER_CHANGE".toList)
  | .BAMBU => startswith l ("; CHANGE_LAYER".toList)
  | .CURA => startswith l (";LAYER:".toList)
  | .SEARCH => false

/-- Universal `is_begin_inner_wall_line` (lines 227-243). -/
def u_is_begin_inner_wall_line (sl : Slicer) (l : Line) : Bool :=
  match sl with
  | .ORCA => startswith l (";TYPE:Inner wall".toList)
  | .PRUSA => startswith l (";TYPE:Perimeter".toList)
  | .BAMBU => startswith l ("; FEATURE: Inner wall".toList)
  | .CURA => startswith l (";TYPE:WALL-INNER".toList)
  | .SEARCH => false

/-- Universal `is_begin_infill_segment_line` (lines 279-295). -/
def u_is_begin_infill_segment_line (sl : Slicer) (l : Line) : Bool :=
  match sl with
  | .ORCA => startswith l (";TYPE:Sparse infill".toList)
  | .PRUSA => startswith l (";TYPE:Internal infill".toList)
  | .BAMBU => startswith l ("; FEATURE: Sparse infill".toList)
  | .CURA => startswith l (";TYPE:FILL".toList)
  | .SEARCH => false

/-- Universal `is_start_gcode` (lines 297-312); `False` for Cura. -/
def u_is_start_gcode (sl : Slicer) (l : Line) : Bool :=
  match sl with
  | .ORCA | .PRUSA => startswith l (";TYPE:Custom".toList)
  | .BAMBU => startswith l ("; FEATURE: Custom".toList)
  | .CURA => false
  | .SEARCH => false

/-- The `prog_type` regex of the Universal variant as a function of the
resolved slicer (`^; FEATURE:` for Bambu, `^;TYPE:` otherwise). -/
def u_prog_type (sl : Slicer) (l : Line) : Bool :=
  if sl = Slicer.BAMBU then startswith l ("; FEATURE:".toList)
  else startswith l (";TYPE:".toList)

/-- Section transition of the Universal classifier on a marker line (lines
456-462): begin-inner-wall, begin-infill, everything else to NOTHING (this
variant has no end-inner-wall case). -/
def universalTypeSection (sl : Slicer) (l : Line) : Section :=
  if u_is_begin_inner_wall_line sl l then .INNER_WALL
  else if u_is_begin_infill_segment_line sl l then .INFILL
  else .NOTHING

/-- `line.split("=")[-1]`: the characters after the last `=` (the whole
line when there is none). -/
def afterLastEq (l : Line) : Line :=
  (l.reverse.takeWhile (· ≠ '=')).reverse

/-- `s.split("mm")[0]`: the prefix before the first occurrence of `"mm"`. -/
def beforeMM : Line → Line
  | [] => []
  | 'm' :: 'm' :: _ => []
  | c :: rest => c :: beforeMM rest

/-- The line-width capture of the Universal variant (lines 438-441):
`float(currentLine.split("=")[-1].split("mm")[0])`. -/
def parseSettingWidth (l : Line) : Option ℚ :=
  pyFloat (beforeMM (afterLastEq l))

/-- Per-run mutable state of the Universal variant.  `slicer` holds the
(possibly still unresolved) slicer; the line widths, `infill_speed`,
`infill_begin` and `infill_flow` are `none` while unbound.  As with the
Orca model, `perimeterSegments` is taken as bound from the start, and the
reverse pre-scan that discovers `hotend_max_flow` and the infill pattern is
modelled by the corresponding `Params` fields. -/
structure UState where
  slicer : Slicer
  ignore_pos : Bool
  is_old_speed : Bool
  currentSection : Section
  lastPosition : Point2D
  perimeterSegments : List Segment
  infill_speed : Option Line
  infill_begin : Option Bool
  infill_flow : Option ℝ
  infill_linewidth : Option ℝ
  inner_wall_linewidth : Option ℝ

/-- Slicer auto-detection of the Universal variant (lines 410-435),
including the Orca-with-Bambu-printer override; `REMOVE_SLICER_INFO` is
`False` by default, so no line is dropped here. -/
def uDetectSlicer (sl : Slicer) (l : Line) : Slicer :=
  let sl1 :=
    if sl = Slicer.SEARCH then
      if startswith l ("; generated by PrusaSlicer".toList) then Slicer.PRUSA
      else if startswith l ("; BambuStudio".toList) then Slicer.BAMBU
      else if startswith l (";Generated with Cura_SteamEngine".toList) then Slicer.CURA
      else if startswith l ("; generated by OrcaSlicer".toList) then Slicer.ORCA
      else sl
    else sl
  if sl1 = Slicer.ORCA ∧ startswith l ("; printer_model = Bambu".toList) then Slicer.BAMBU
  else sl1

/-- The line-width capture of `infill_linewidth` (Universal lines 438-439). -/
noncomputable def uWidthInfill (stA : UState) (l : Line) : Except PyErr UState :=
  if startswith l ("; infill extrusion width = ".toList) ∨
     startswith l ("; sparse_infill_line_width = ".toList) then do
    let v ← ofOption .valueErr (parseSettingWidth l)
    Except.ok { stA with infill_linewidth := some ((v : ℚ) : ℝ) }
  else Except.ok stA

/-- The line-width capture of `inner_wall_linewidth` (Universal lines 440-441). -/
noncomputable def uWidthWall (stB : UState) (l : Line) : Except PyErr UState :=
  if startswith l ("; perimeters extrusion width = ".toList) ∨
     startswith l ("; inner_wall_line_width = ".toList) then do
    let v ← ofOption .valueErr (parseSettingWidth l)
    Except.ok { stB with inner_wall_linewidth := some ((v : ℚ) : ℝ) }
  else Except.ok stB

/-- Wall-segment collection of the Universal variant (lines 471-472). -/
noncomputable def uWallCollect (st0 : UState) (l : Line) : Except PyErr UState :=
  if st0.currentSection = Section.INNER_WALL ∧ is_extrusion_line l then do
    let pnt ← getXY l
    Except.ok { st0 with perimeterSegments := st0.perimeterSegments ++ [⟨pnt, st0.lastPosition⟩] }
  else Except.ok st0

/-- The infill speed-line branch of the Universal variant (lines 475-484):
like the Orca one, but the original line is never marked written here. -/
noncomputable def uFBranch (st1 : UState) (l : Line) : Except PyErr (UState × List OutLine) :=
  if 'F' ∈ l ∧ substr ('G' :: ['1']) l then
    match searchGroup 'F' l with
    | some sp =>
        let stF := { st1 with infill_speed := some sp, infill_begin := some true }
        if 'E' ∈ l then Except.ok (stF, [OutLine.feedStr sp])
        else Except.ok (stF, ([] : List OutLine))
    | none => Except.error PyErr.syntaxErr
  else Except.ok (st1, ([] : List OutLine))

/-- The INFILL-section processing of the Universal variant (lines 474-638). -/
noncomputable def uInfillHandle (p : Params) (st1 : UState) (l : Line) :
    Except PyErr (UState × List OutLine × Bool) :=
  if st1.currentSection = Section.INFILL then do
    let r1 ← uFBranch st1 l
    if prog_extrusion l then do
      let cur ← getXY l
      match p.infill_type with
      | .LINEAR => do
          let res ← universalLinear p r1.1.perimeterSegments r1.1.lastPosition r1.1.is_old_speed
              r1.1.infill_speed r1.1.infill_begin r1.1.infill_flow cur (splitOnSpace l)
          let stL := { r1.1 with lastPosition := res.1, is_old_speed := res.2.1, infill_begin := res.2.2.1, infill_flow := res.2.2.2.1 }
          Except.ok (stL, r1.2 ++ res.2.2.2.2, true)
      | .SMALL_SEGMENTS => do
          let res ← universalSmall p r1.1.perimeterSegments r1.1.lastPosition r1.1.is_old_speed
              r1.1.infill_speed r1.1.infill_begin r1.1.infill_flow r1.1.infill_linewidth
              r1.1.inner_wall_linewidth cur (splitOnSpace l)
          let stS := { r1.1 with is_old_speed := res.1, infill_begin := res.2.1, infill_flow := res.2.2.1 }
          Except.ok (stS, r1.2 ++ res.2.2.2.2, res.2.2.2.1)
    else Except.ok (r1.1, r1.2, false)
  else Except.ok (st1, ([] : List OutLine), false)

/-- The position update of the Universal variant (lines 641-643). -/
noncomputable def uPosUpdate (st2 : UState) (l : Line) : Except PyErr UState :=
  if prog_move l ∧ st2.ignore_pos = false then do
    let pnt ← getXY l
    Except.ok { st2 with lastPosition := pnt }
  else Except.ok st2

/-- One iteration of the Universal main loop
(`universal_addGradientinfill.py` lines 409-649) on one input line.  The
marker branch comes first; `elif` on it, a line starting with `G2 ` or
`G3 ` raises `TypeError` (line 468-469); otherwise the wall collector, the
infill pipeline, the position update and the pass-through emission run. -/
noncomputable def universalStep (p : Params) (st : UState) (l : Line) :
    Except PyErr (UState × List OutLine) := do
  let stA := { st with slicer := uDetectSlicer st.slicer l }
  let stB ← uWidthInfill stA l
  let stC ← uWidthWall stB l
  let st0 := if u_is_begin_layer_line stC.slicer l then { stC with perimeterSegments := [] } else stC
  if u_prog_type st0.slicer l then
    if st0.slicer = Slicer.SEARCH then Except.error PyErr.syntaxErr else
    Except.ok ({ st0 with ignore_pos := u_is_start_gcode st0.slicer l, currentSection := universalTypeSection st0.slicer l }, [OutLine.raw l])
  else if startswith l ("G2 ".toList) ∨ startswith l ("G3 ".toList) then
    Except.error PyErr.typeErr
  else do
    let st1 ← uWallCollect st0 l
    let r2 ← uInfillHandle p st1 l
    let st3 ← uPosUpdate r2.1 l
    if r2.2.2 then Except.ok (st3, r2.2.1) else Except.ok (st3, r2.2.1 ++ [OutLine.raw l])

/-- The whole Universal pass over a list of input lines.  The source writes
the output file only after the loop finishes, so an exception anywhere
aborts the run with no output committed; this is modelled by the `Except`
result carrying the output only in the `ok` case. -/
noncomputable def universalRun (p : Params) : UState → List Line →
    Except PyErr (UState × List OutLine)
  | st, [] => .ok (st, [])
  | st, l :: ls => do
    let (st1, out1) ← universalStep p st l
    let (st2, out2) ← universalRun p st1 ls
    .ok (st2, out1 ++ out2)

end GradientInfill

namespace GradientInfill

/-- Per-run mutable state of the Prusa variant (`prusa_addGradientinfill.py`
`process_gcode` locals; `layer_count` starts at 1, lines 297-300).  As with
the other variants, `perimeterSegments` is taken as bound from the start.
The first-line removal (`remove_slicer_info`) happens before the loop body
and is not part of this per-line step. -/
structure PrusaState where
  layer_count : ℤ
  currentSection : Section
  lastPosition : Point2D
  perimeterSegments : List Segment

/-- Initial state of the Prusa variant. -/
def prusaInit : PrusaState :=
  { layer_count := 1
    currentSection := .NOTHING
    lastPosition := ⟨-10000, -10000⟩
    perimeterSegments := [] }

/-- Wall-segment collection of the Prusa variant (lines 342-343). -/
noncomputable def prusaWallCollect (st1 : PrusaState) (l : Line) : Except PyErr PrusaState :=
  if st1.currentSection = Section.INNER_WALL ∧ is_extrusion_line l then do
    let pnt ← getXY l
    Except.ok { st1 with perimeterSegments := st1.perimeterSegments ++ [⟨pnt, st1.lastPosition⟩] }
  else Except.ok st1

/-- The infill speed-line branch of the Prusa variant (lines 347-354): a
reformatted feed line is appended for every `G1`-and-`F` line, with no `E`
condition and no state. -/
noncomputable def prusaFBranch (l : Line) : Except PyErr (List OutLine) :=
  if 'F' ∈ l ∧ substr ('G' :: ['1']) l then
    match searchGroup 'F' l with
    | some sp => Except.ok [OutLine.feedStr sp]
    | none => Except.error PyErr.syntaxErr
  else Except.ok ([] : List OutLine)

/-- The INFILL-section processing of the Prusa variant (lines 346-428). -/
noncomputable def prusaInfillHandle (p : Params) (st2 : PrusaState) (l : Line) :
    Except PyErr (PrusaState × List OutLine × Bool) :=
  if st2.currentSection = Section.INFILL then do
    let outF ← prusaFBranch l
    if prog_extrusion l then do
      let cur ← getXY l
      match p.infill_type with
      | .LINEAR => do
          let res ← prusaLinear p st2.perimeterSegments st2.lastPosition cur (splitOnSpace l)
          Except.ok ({ st2 with lastPosition := res.1 }, outF ++ res.2, true)
      | .SMALL_SEGMENTS => do
          let res ← prusaSmall p st2.perimeterSegments st2.lastPosition cur (splitOnSpace l)
          Except.ok (st2, outF ++ res.2, res.1)
    else Except.ok (st2, outF, false)
  else Except.ok (st2, ([] : List OutLine), false)

/-- The position update of the Prusa variant (lines 436-437): unlike the
other variants it is not gated by any start-gcode flag. -/
noncomputable def prusaPosUpdate (st3 : PrusaState) (l : Line) : Except PyErr PrusaState :=
  if prog_move l then do
    let pnt ← getXY l
    Except.ok { st3 with lastPosition := pnt }
  else Except.ok st3

/-- The part of the Prusa loop body that runs after the classifier when no
`continue` fired (lines 339-443): the INNER_WALL deletion flag, the wall
collector, the infill pipeline, the position update and the emission. -/
noncomputable def prusaBody (p : Params) (st1 : PrusaState) (l : Line) :
    Except PyErr (PrusaState × List OutLine) := do
  let st2 ← prusaWallCollect st1 l
  let r3 ← prusaInfillHandle p st2 l
  let st4 ← prusaPosUpdate r3.1 l
  if st1.currentSection = Section.INNER_WALL ∨ r3.2.2 then Except.ok (st4, r3.2.1)
  else Except.ok (st4, r3.2.1 ++ [OutLine.raw l])

/-- One iteration of the Prusa main loop (`prusa_addGradientinfill.py`
lines 309-443) on one input line, given the `bottom_layers` parameter.
Layers up to `bottom_layers` are passed through untouched.  Above them, the
classifier behaves as in the source: an end-inner-wall marker sets
INNER_WALL and is dropped by its bare `continue`; the begin-infill marker
sets INFILL and is emitted; a begin-inner-wall marker sets INNER_WALL and
falls through into the body, whose `currentSection == INNER_WALL` check
sets `writtenToFile = 1` for every line seen in the INNER_WALL section
("delete outer perimeter"), dropping it; any other marker sets NOTHING and
falls through (and is emitted). -/
noncomputable def prusaStep (p : Params) (bottom_layers : ℤ) (st : PrusaState) (l : Line) :
    Except PyErr (PrusaState × List OutLine) :=
  let st0 := if is_begin_layer_line l then
      { st with perimeterSegments := [], layer_count := st.layer_count + 1 } else st
  if bottom_layers < st0.layer_count then
    if prog_type_matches l then
      if prusa_is_begin_inner_wall_line l then
        prusaBody p { st0 with currentSection := Section.INNER_WALL } l
      else if prusa_is_end_inner_wall_line l then
        Except.ok ({ st0 with currentSection := Section.INNER_WALL }, ([] : List OutLine))
      else if prusa_is_begin_infill_segment_line l then
        Except.ok ({ st0 with currentSection := Section.INFILL }, [OutLine.raw l])
      else
        prusaBody p { st0 with currentSection := Section.NOTHING } l
    else prusaBody p st0 l
  else Except.ok (st0, [OutLine.raw l])

end GradientInfill

namespace GradientInfill

theorem dist_nonneg' (s : Segment) (q : Point2D) : 0 ≤ dist s q := by
  unfold dist
  dsimp only
  split
  · exact le_refl 0
  · exact Real.sqrt_nonneg _

theorem dist_degenerate (s : Segment) (q : Point2D) (h : s.point1 = s.point2) :
    dist s q = 0 := by
  unfold dist
  rw [h]
  simp

theorem prusa_dist_degenerate (s : Segment) (q : Point2D) (h : s.point1 = s.point2) :
    prusa_dist s q = none := by
  unfold prusa_dist
  rw [h]
  simp

theorem prusa_dist_nonneg (s : Segment) (q : Point2D) (r : ℝ) (h : prusa_dist s q = some r) :
    0 ≤ r := by
  unfold prusa_dist at h
  dsimp only at h
  split at h
  · exact absurd h (by simp)
  · rw [Option.some_inj] at h
    exact h ▸ Real.sqrt_nonneg _

/-- C6 (counterexample): on the zero-length segment from `(0,0)` to `(0,0)`
the Prusa variant's `dist` raises `ZeroDivisionError` (result `none`)
instead of returning `0`, so the claim's "returns 0 without failing, in
every variant of the engine" is false. -/
theorem C6_prusa_degenerate_raises :
    prusa_dist ⟨⟨0, 0⟩, ⟨0, 0⟩⟩ ⟨1, 2⟩ = none := by
  unfold prusa_dist
  norm_num

/-- C6 (amended): in every variant `dist` is nonnegative whenever it
returns; on a zero-length segment the Orca and Universal variants return
`0`, while the Prusa variant raises `ZeroDivisionError` instead of
returning. -/
theorem C6_dist_nonneg_and_degenerate :
    (∀ s q, 0 ≤ dist s q) ∧
    (∀ s q r, prusa_dist s q = some r → 0 ≤ r) ∧
    (∀ s q, s.point1 = s.point2 → dist s q = 0 ∧ prusa_dist s q = none) :=
  ⟨dist_nonneg', prusa_dist_nonneg, fun s q h => ⟨dist_degenerate s q h, prusa_dist_degenerate s q h⟩⟩

/-- C6 (witness): the amended theorem applied at the zero-length segment
from `(3,4)` to `(3,4)` and the query point `(0,0)`. -/
theorem C6_witness :
    0 ≤ dist ⟨⟨3, 4⟩, ⟨3, 4⟩⟩ ⟨0, 0⟩ ∧
    dist ⟨⟨3, 4⟩, ⟨3, 4⟩⟩ ⟨0, 0⟩ = 0 ∧
    prusa_dist ⟨⟨3, 4⟩, ⟨3, 4⟩⟩ ⟨0, 0⟩ = none :=
  ⟨C6_dist_nonneg_and_degenerate.1 _ _,
   (C6_dist_nonneg_and_degenerate.2.2 ⟨⟨3, 4⟩, ⟨3, 4⟩⟩ ⟨0, 0⟩ rfl).1,
   (C6_dist_nonneg_and_degenerate.2.2 ⟨⟨3, 4⟩, ⟨3, 4⟩⟩ ⟨0, 0⟩ rfl).2⟩

end GradientInfill

namespace GradientInfill

/-- C9: the nearest-wall evaluator has no result on an empty wall set
(Python `min` of an empty collection raises `ValueError`), and both
SMALL_SEGMENTS handlers abort with that error when invoked on an infill
extrusion move while the layer's wall segment set is empty. -/
theorem C9_empty_wall_set_aborts :
    (∀ s, min_distance_from_segment s [] = none) ∧
    (∀ s, min_distance_from_segment_seg s [] = none) ∧
    (∀ p last flag sp ib fl cur toks,
      orcaSmall p [] last flag sp ib fl cur toks = .error .valueErr) ∧
    (∀ p last flag sp ib fl ilw wlw cur toks,
      universalSmall p [] last flag sp ib fl ilw wlw cur toks = .error .valueErr) :=
  ⟨fun _ => rfl, fun _ => rfl,
   fun _ _ _ _ _ _ _ _ => rfl,
   fun _ _ _ _ _ _ _ _ _ _ => rfl⟩

theorem searchGroup_append (c : Char) (a b : Line) (h : c ∉ a) :
    searchGroup c (a ++ c :: b) = some (takeNumGroup b) := by
  induction a with
  | nil => simp [searchGroup]
  | cons x xs ih =>
      have hx : x ≠ c := fun hxc => h (hxc ▸ List.mem_cons_self x xs)
      simpa [searchGroup, hx] using ih (fun hc => h (List.mem_cons_of_mem x hc))

/-- C10: a move line whose `X` value is negative makes the capture group of
`X(\d*\.?\d*)` match the empty string, so `getXY` fails with `ValueError`
(from `float('')`), not with the documented `SyntaxError`; on the claim's
example line the result is exactly that, and on the same line with a
non-negative `X` value `getXY` returns the parsed coordinates. -/
theorem C10_negative_coordinate_value_error :
    (∀ a b : Line, 'X' ∉ a → (searchGroup 'Y' (a ++ 'X' :: '-' :: b)).isSome = true →
      getXY (a ++ 'X' :: '-' :: b) = .error .valueErr) ∧
    getXY ("G1 X-5.0 Y10 E1".toList) = .error .valueErr ∧
    getXY ("G1 X5.0 Y10 E1".toList) = .ok ⟨5, 10⟩ := by
  refine ⟨?_, ?_, ?_⟩
  · intro a b hX hY
    obtain ⟨g, hg⟩ := Option.isSome_iff_exists.mp hY
    unfold getXY
    rw [searchGroup_append 'X' a ('-' :: b) hX, hg]
    have h1 : takeNumGroup ('-' :: b) = [] := rfl
    rw [h1]
    rfl
  · rfl
  · have hx : searchGroup 'X' ("G1 X5.0 Y10 E1".toList) = some ("5.0".toList) := by decide
    have hy : searchGroup 'Y' ("G1 X5.0 Y10 E1".toList) = some ("10".toList) := by decide
    have px : pyFloat ("5.0".toList) = some 5 := by
      have h : pyFloat ("5.0".toList) =
          some ((digitsVal ['5'] : ℚ) + (digitsVal ['0'] : ℚ) / 10 ^ (['0'] : Line).length) := rfl
      rw [h, show digitsVal ['5'] = 5 from by decide, show digitsVal ['0'] = 0 from by decide]
      norm_num
    have py : pyFloat ("10".toList) = some 10 := by
      have h : pyFloat ("10".toList) = some ((digitsVal ['1', '0'] : ℚ)) := rfl
      rw [h, show digitsVal ['1', '0'] = 10 from by decide]
      norm_num
    unfold getXY
    rw [hx, hy]
    dsimp only
    rw [px, py]
    dsimp only
    simp [Point2D.mk.injEq]

/-- C10 (witness): the general part of the theorem applied at the line
`"G1 X-5.0 Y10 E1"` decomposed as `"G1 " ++ "X" ++ "-" ++ "5.0 Y10 E1"`. -/
theorem C10_witness :
    ('X' ∉ ("G1 ".toList) ∧
      (searchGroup 'Y' (("G1 ".toList) ++ 'X' :: '-' :: ("5.0 Y10 E1".toList))).isSome = true) ∧
    getXY (("G1 ".toList) ++ 'X' :: '-' :: ("5.0 Y10 E1".toList)) = .error .valueErr :=
  ⟨⟨by decide, by decide⟩,
   C10_negative_coordinate_value_error.1 ("G1 ".toList) ("5.0 Y10 E1".toList)
     (by decide) (by decide)⟩

end GradientInfill

namespace GradientInfill

theorem feedRun_universal_noFeed (n : ℕ) :
    feedRun universal_feed_step true (List.replicate n false) = List.replicate n .noFeed := by
  induction n with
  | zero => rfl
  | succ k ih => simpa [feedRun, universal_feed_step, List.replicate_succ] using ih

theorem feedRun_orca_noFeed (n : ℕ) :
    feedRun orca_feed_step true (List.replicate n false) = List.replicate n .noFeed := by
  induction n with
  | zero => rfl
  | succ k ih => simpa [feedRun, orca_feed_step, List.replicate_succ] using ih

/-- C4: (i) over a contiguous run of within-limit moves starting with the
"feed unchanged" flag clear, both variants emit exactly one feed line at
the slicer's original feed, before the first move and before none of the
later ones; (ii) the Universal variant clears the flag on every
flow-limited move, so (iii) in the Universal variant a within-limit move
right after a flow-limited one is again preceded by an original-feed line;
but (iv) at the failing input (within-limit, flow-limited, within-limit,
flag initially clear) the Orca variant emits no feed line before the third
move, because its flow-limited branch leaves the flag set. -/
theorem C4_feed_line_runs :
    (∀ n : ℕ,
      feedRun universal_feed_step false (List.replicate (n + 1) false) =
        .original :: List.replicate n .noFeed ∧
      feedRun orca_feed_step false (List.replicate (n + 1) false) =
        .original :: List.replicate n .noFeed) ∧
    (∀ s, (universal_feed_step true s).2 = false) ∧
    (∀ s rest, feedRun universal_feed_step s (true :: false :: rest) =
      .override :: .original :: feedRun universal_feed_step true rest) ∧
    feedRun orca_feed_step false [false, true, false] = [.original, .override, .noFeed] := by
  refine ⟨?_, ?_, ?_, ?_⟩
  · intro n
    constructor
    · simpa [feedRun, universal_feed_step, List.replicate_succ] using feedRun_universal_noFeed n
    · simpa [feedRun, orca_feed_step, List.replicate_succ] using feedRun_orca_noFeed n
  · intro s
    rfl
  · intro s rest
    cases s <;> rfl
  · rfl

end GradientInfill

namespace GradientInfill

/-- C1 (counterexample): at distance `d = 25` at or beyond the gradient
thickness `T = 20` (with `max_flow = 550`, `min_flow = 50`), the LINEAR
sub-segment flow factor of the source is `min_flow/100 = 1/2` — the LINEAR
branch has no `thin_inner_core` test at all — whereas the claim demands the
move be left completely unscaled (multiplier `1`) whenever
`thin_inner_core` is disabled.  So the claim, as stated for the LINEAR
pattern, is false at this input. -/
theorem C1_counterexample_linear_far :
    linear_flow_factor 20 550 50 25 = 1 / 2 ∧ ((1 : ℝ) / 2) ≠ 1 := by
  constructor
  · unfold linear_flow_factor
    rw [if_neg (by norm_num)]
    norm_num
  · norm_num

theorem universalSmall_far_thin (p : Params) (perim : List Segment)
    (last : Point2D) (flag : Bool) (sp : Option Line) (ib : Option Bool) (fl : Option ℝ)
    (ilw wlw : Option ℝ) (cur : Point2D) (toks : List Line) (d : ℝ) (ms : Segment) (e : ℝ)
    (hseg : min_distance_from_segment_seg ⟨last, cur⟩ perim = some (d, ms))
    (hfar : p.gradient_thickness ≤ d)
    (hthin : p.thin_inner_core = true)
    (he : smallThinEValue toks = .ok (some e)) :
    universalSmall p perim last flag sp ib fl ilw wlw cur toks =
      .ok (flag, ib, fl, true, [.rebuilt toks (e * p.min_flow / 100)]) := by
  unfold universalSmall
  rw [hseg]
  dsimp only [ofOption, Bind.bind, Except.bind]
  rw [if_neg (not_lt.mpr hfar), hthin, he]
  rfl

theorem universalSmall_far_pass (p : Params) (perim : List Segment)
    (last : Point2D) (flag : Bool) (sp : Option Line) (ib : Option Bool) (fl : Option ℝ)
    (ilw wlw : Option ℝ) (cur : Point2D) (toks : List Line) (d : ℝ) (ms : Segment)
    (hseg : min_distance_from_segment_seg ⟨last, cur⟩ perim = some (d, ms))
    (hfar : p.gradient_thickness ≤ d)
    (hthin : p.thin_inner_core = false) :
    universalSmall p perim last flag sp ib fl ilw wlw cur toks =
      .ok (flag, ib, fl, false, []) := by
  unfold universalSmall
  rw [hseg]
  dsimp only [ofOption, Bind.bind, Except.bind]
  rw [if_neg (not_lt.mpr hfar), hthin]
  rfl

/-- C1 (amended): for `T ≠ 0` (resp. `T > 0`) the gradient mapper computes
`flow_factor = max_flow/100 + d * (min_flow/100 - max_flow/100) / T`, with
value `max_flow/100` at `d = 0`, value `min_flow/100` at `d = T`, and
non-increasing in `d` when `min_flow ≤ max_flow`; for `d ≥ T` the LINEAR
pattern multiplies every sub-segment extrusion by `min_flow/100` regardless
of `thin_inner_core`, while the SMALL_SEGMENTS pattern (Universal variant)
multiplies the extrusion by `min_flow/100` when `thin_inner_core` is
enabled and passes the move through completely unscaled when it is
disabled. -/
theorem C1_flow_gradient_mapper :
    (∀ T maxf minf d : ℝ,
      mapRange (0, T) (maxf / 100, minf / 100) d =
        maxf / 100 + d * (minf / 100 - maxf / 100) / T) ∧
    (∀ T maxf minf : ℝ, mapRange (0, T) (maxf / 100, minf / 100) 0 = maxf / 100) ∧
    (∀ T maxf minf : ℝ, T ≠ 0 → mapRange (0, T) (maxf / 100, minf / 100) T = minf / 100) ∧
    (∀ T maxf minf d1 d2 : ℝ, 0 < T → minf ≤ maxf → d1 ≤ d2 →
      mapRange (0, T) (maxf / 100, minf / 100) d2 ≤ mapRange (0, T) (maxf / 100, minf / 100) d1) ∧
    (∀ T maxf minf d : ℝ, T ≤ d → linear_flow_factor T maxf minf d = minf / 100) ∧
    (∀ (p : Params) perim last flag sp ib fl ilw wlw cur toks (d : ℝ) ms (e : ℝ),
      min_distance_from_segment_seg ⟨last, cur⟩ perim = some (d, ms) →
      p.gradient_thickness ≤ d →
      (p.thin_inner_core = true → smallThinEValue toks = .ok (some e) →
        universalSmall p perim last flag sp ib fl ilw wlw cur toks =
          .ok (flag, ib, fl, true, [.rebuilt toks (e * p.min_flow / 100)])) ∧
      (p.thin_inner_core = false →
        universalSmall p perim last flag sp ib fl ilw wlw cur toks =
          .ok (flag, ib, fl, false, []))) := by
  refine ⟨?_, ?_, ?_, ?_, ?_, ?_⟩
  · intro T maxf minf d
    unfold mapRange
    ring
  · intro T maxf minf
    unfold mapRange
    ring
  · intro T maxf minf hT
    unfold mapRange
    field_simp
    ring
  · intro T maxf minf d1 d2 hT hmm hd
    unfold mapRange
    dsimp only
    have hfac : (minf / 100 - maxf / 100) / (T - 0) ≤ 0 :=
      div_nonpos_of_nonpos_of_nonneg (by linarith) (by linarith)
    have h2 : (d2 - 0) * ((minf / 100 - maxf / 100) / (T - 0)) ≤
        (d1 - 0) * ((minf / 100 - maxf / 100) / (T - 0)) := by
      apply mul_le_mul_of_nonpos_right (by linarith) hfac
    calc maxf / 100 + (d2 - 0) * (minf / 100 - maxf / 100) / (T - 0)
        = maxf / 100 + (d2 - 0) * ((minf / 100 - maxf / 100) / (T - 0)) := by ring
      _ ≤ maxf / 100 + (d1 - 0) * ((minf / 100 - maxf / 100) / (T - 0)) := by linarith
      _ = maxf / 100 + (d1 - 0) * (minf / 100 - maxf / 100) / (T - 0) := by ring
  · intro T maxf minf d h
    unfold linear_flow_factor
    rw [if_neg (not_lt.mpr h)]
  · intro p perim last flag sp ib fl ilw wlw cur toks d ms e hseg hfar
    exact ⟨fun hthin he => universalSmall_far_thin p perim last flag sp ib fl ilw wlw cur toks
        d ms e hseg hfar hthin he,
      fun hthin => universalSmall_far_pass p perim last flag sp ib fl ilw wlw cur toks
        d ms hseg hfar hthin⟩

end GradientInfill

namespace GradientInfill

theorem dist_wall_eval : dist ⟨⟨0, 30⟩, ⟨10, 30⟩⟩ ⟨0, 0⟩ = 30 := by
  unfold dist
  norm_num
  rw [show (900 : ℝ) = 30 ^ 2 by norm_num, Real.sqrt_sq (by norm_num)]

theorem middlePoint_degenerate : middlePoint ⟨⟨0, 0⟩, ⟨0, 0⟩⟩ = ⟨0, 0⟩ := by
  unfold middlePoint
  simp [Point2D.mk.injEq]

theorem min_seg_eval :
    min_distance_from_segment_seg ⟨⟨0, 0⟩, ⟨0, 0⟩⟩ [⟨⟨0, 30⟩, ⟨10, 30⟩⟩] =
      some (30, ⟨⟨0, 30⟩, ⟨10, 30⟩⟩) := by
  unfold min_distance_from_segment_seg
  dsimp only [pyMinBy]
  rw [middlePoint_degenerate, dist_wall_eval]

theorem smallThinEValue_E2 : smallThinEValue [['E', '2']] = .ok (some 2) := by
  have h2 : pyFloat ['2'] = some 2 := by
    have h : pyFloat ['2'] = some ((digitsVal ['2'] : ℚ)) := rfl
    rw [h, show digitsVal ['2'] = 2 from by decide]
    norm_num
  unfold smallThinEValue
  simp [List.foldlM, h2]

/-- C1 (witness): the amended theorem applied at `T = 20`, `max_flow = 550`,
`min_flow = 50`, at the distances `0`, `20`, `2 ≤ 3` and `25`, and at a
concrete far SMALL_SEGMENTS move (wall at distance 30) with
`thin_inner_core` enabled and disabled. -/
theorem C1_witness :
    ((20 : ℝ) ≠ 0 ∧ mapRange (0, 20) (550 / 100, 50 / 100) 20 = 50 / 100) ∧
    (mapRange (0, 20) (550 / 100, 50 / 100) 0 = 550 / 100) ∧
    ((0 : ℝ) < 20 ∧ (50 : ℝ) ≤ 550 ∧ (2 : ℝ) ≤ 3 ∧
      mapRange (0, 20) (550 / 100, 50 / 100) 3 ≤ mapRange (0, 20) (550 / 100, 50 / 100) 2) ∧
    ((20 : ℝ) ≤ 25 ∧ linear_flow_factor 20 550 50 25 = 50 / 100) ∧
    (universalSmall ⟨.SMALL_SEGMENTS, 550, 50, 20, 5, 20, 7 / 4, true⟩
        [⟨⟨0, 30⟩, ⟨10, 30⟩⟩] ⟨0, 0⟩ false none none none none none ⟨0, 0⟩ [['E', '2']] =
      .ok (false, none, none, true, [.rebuilt [['E', '2']] ((2 : ℝ) * 50 / 100)])) ∧
    (universalSmall ⟨.SMALL_SEGMENTS, 550, 50, 20, 5, 20, 7 / 4, false⟩
        [⟨⟨0, 30⟩, ⟨10, 30⟩⟩] ⟨0, 0⟩ false none none none none none ⟨0, 0⟩ [['E', '2']] =
      .ok (false, none, none, false, [])) :=
  ⟨⟨by norm_num, C1_flow_gradient_mapper.2.2.1 20 550 50 (by norm_num)⟩,
   C1_flow_gradient_mapper.2.1 20 550 50,
   ⟨by norm_num, by norm_num, by norm_num,
    C1_flow_gradient_mapper.2.2.2.1 20 550 50 2 3 (by norm_num) (by norm_num) (by norm_num)⟩,
   ⟨by norm_num, C1_flow_gradient_mapper.2.2.2.2.1 20 550 50 25 (by norm_num)⟩,
   ((C1_flow_gradient_mapper.2.2.2.2.2 ⟨.SMALL_SEGMENTS, 550, 50, 20, 5, 20, 7 / 4, true⟩
      [⟨⟨0, 30⟩, ⟨10, 30⟩⟩] ⟨0, 0⟩ false none none none none none ⟨0, 0⟩ [['E', '2']]
      30 ⟨⟨0, 30⟩, ⟨10, 30⟩⟩ 2 min_seg_eval (by norm_num)).1 rfl smallThinEValue_E2),
   ((C1_flow_gradient_mapper.2.2.2.2.2 ⟨.SMALL_SEGMENTS, 550, 50, 20, 5, 20, 7 / 4, false⟩
      [⟨⟨0, 30⟩, ⟨10, 30⟩⟩] ⟨0, 0⟩ false none none none none none ⟨0, 0⟩ [['E', '2']]
      30 ⟨⟨0, 30⟩, ⟨10, 30⟩⟩ 2 min_seg_eval (by norm_num)).2 rfl)⟩

end GradientInfill

namespace GradientInfill

theorem round_A_div_pi (A : ℝ) (k : ℤ) (hA : 0 < A)
    (h1 : (k : ℝ) - 1 / 2 ≤ A / 3.141593)
    (h2 : A / 3.141592 < (k : ℝ) + 1 / 2) :
    round (A / Real.pi) = k := by
  have hp : (0 : ℝ) < 3.141592 := by norm_num
  have hlo : A / 3.141593 < A / Real.pi :=
    div_lt_div_of_pos_left hA Real.pi_pos Real.pi_lt_d6
  have hhi : A / Real.pi < A / 3.141592 :=
    div_lt_div_of_pos_left hA hp Real.pi_gt_d6
  rw [round_eq, Int.floor_eq_iff]
  refine ⟨by linarith, by linarith⟩

theorem round3_div_pi (A : ℝ) (k : ℤ) (hA : 0 < A)
    (h1 : (k : ℝ) - 1 / 2 ≤ 1000 * A / 3.141593)
    (h2 : 1000 * A / 3.141592 < (k : ℝ) + 1 / 2) :
    round3 (A / Real.pi) = (k : ℝ) / 1000 := by
  unfold round3
  rw [show 1000 * (A / Real.pi) = (1000 * A) / Real.pi by ring,
    round_A_div_pi (1000 * A) k (by positivity) h1 h2]

end GradientInfill

namespace GradientInfill

theorem linear_remainder_feedF_spec (p : Params) (E L Lrem : ℝ) (h : Lrem ≠ 0) :
    linear_remainder_feedF p E L =
      spec_feed_override p.hotend_max_flow Lrem (Lrem / L * E * p.max_flow / 100) p.d_f := by
  unfold linear_remainder_feedF control_flow spec_feed_override
  congr 1
  by_cases hL : L = 0
  · simp [hL]
  · have h2 : Lrem / L * E * p.max_flow / 100 * p.d_f ^ 2 * Real.pi =
        Lrem / L * (E * p.max_flow / 100 * p.d_f ^ 2 * Real.pi) := by ring
    rw [h2]
    by_cases hD : E * p.max_flow / 100 * p.d_f ^ 2 * Real.pi = 0
    · rw [hD, mul_zero, div_zero, div_zero]
    · field_simp
      rw [show p.hotend_max_flow * Lrem * 60 * 4 * (L * 100) =
          Lrem * (p.hotend_max_flow * L * 60 * 4 * 100) from by ring,
        mul_div_mul_left _ _ h]

/-- C3: (i) the per-sub-segment LINEAR call site and the Universal
SMALL_SEGMENTS call site pass exactly the spec's `(moveLength,
scaledExtrusionLength)` pair to `control_flow`, so the emitted `F` equals
the spec formula (at the claim's Scenario-C numbers among all others);
(ii) the LINEAR remainder call site, which passes the full length and the
full scaled extrusion, also equals the spec formula for the remainder
sub-move because the length ratio cancels; but (iii) at the failing input
the Orca SMALL_SEGMENTS call site, which passes `newE * flow_factor`
(the flow factor applied twice), emits `F = 159.155` where the spec formula
(and the Universal variant) give `F = 318.31`; and (iv) the unsplit
(`segmentSteps < 2`) LINEAR call site of both variants passes the
dimensionless step count as the `distance`, emitting `F = 0.159` where the
spec formula demands `F = 3.183`. -/
theorem C3_feed_override_formula :
    (∀ (p : Params) (elps ff : ℝ),
      linear_loop_feedF p elps ff =
        spec_feed_override p.hotend_max_flow p.gradientDiscretizationLength (elps * ff) p.d_f) ∧
    (∀ (p : Params) (newE segLen : ℝ),
      universal_small_segments_feedF p newE segLen =
        spec_feed_override p.hotend_max_flow segLen newE p.d_f) ∧
    (∀ (p : Params) (E L Lrem : ℝ), Lrem ≠ 0 →
      linear_remainder_feedF p E L =
        spec_feed_override p.hotend_max_flow Lrem (Lrem / L * E * p.max_flow / 100) p.d_f) ∧
    (orca_small_segments_feedF ⟨.SMALL_SEGMENTS, 550, 50, 20, 5, 20, 1, true⟩ (24 / 5) 2 1 =
        159155 / 1000 ∧
      universal_small_segments_feedF ⟨.SMALL_SEGMENTS, 550, 50, 20, 5, 20, 1, true⟩ (24 / 5) 1 =
        318310 / 1000 ∧
      spec_feed_override 20 1 (24 / 5) 1 = 318310 / 1000 ∧
      (159155 / 1000 : ℝ) ≠ 318310 / 1000) ∧
    (linear_nosplit_feedF ⟨.LINEAR, 100, 50, 20, 20, 20, 1, true⟩ 4800 (1 / 2) = 159 / 1000 ∧
      spec_feed_override 20 10 4800 1 = 3183 / 1000 ∧
      (159 / 1000 : ℝ) ≠ 3183 / 1000) := by
  refine ⟨fun p elps ff => rfl, fun p newE segLen => rfl, linear_remainder_feedF_spec, ?_, ?_⟩
  · refine ⟨?_, ?_, ?_, by norm_num⟩
    · unfold orca_small_segments_feedF control_flow
      dsimp only
      rw [show (20 * 1 * 60 * 4 : ℝ) / (24 / 5 * 2 * 1 ^ 2 * Real.pi) = 500 / Real.pi by
        rw [div_eq_div_iff (by positivity) Real.pi_ne_zero]
        ring]
      exact round3_div_pi 500 159155 (by norm_num) (by norm_num) (by norm_num)
    · unfold universal_small_segments_feedF control_flow
      dsimp only
      rw [show (20 * 1 * 60 * 4 : ℝ) / (24 / 5 * 1 ^ 2 * Real.pi) = 1000 / Real.pi by
        rw [div_eq_div_iff (by positivity) Real.pi_ne_zero]
        ring]
      exact round3_div_pi 1000 318310 (by norm_num) (by norm_num) (by norm_num)
    · unfold spec_feed_override
      rw [show (20 * 1 * 60 * 4 : ℝ) / (24 / 5 * 1 ^ 2 * Real.pi) = 1000 / Real.pi by
        rw [div_eq_div_iff (by positivity) Real.pi_ne_zero]
        ring]
      exact round3_div_pi 1000 318310 (by norm_num) (by norm_num) (by norm_num)
  · refine ⟨?_, ?_, by norm_num⟩
    · unfold linear_nosplit_feedF control_flow
      dsimp only
      rw [show (20 * (1 / 2) * 60 * 4 : ℝ) / (4800 * 100 / 100 * 1 ^ 2 * Real.pi) =
          (1 / 2) / Real.pi by
        rw [div_eq_div_iff (by positivity) Real.pi_ne_zero]
        ring]
      exact round3_div_pi (1 / 2) 159 (by norm_num) (by norm_num) (by norm_num)
    · unfold spec_feed_override
      rw [show (20 * 10 * 60 * 4 : ℝ) / (4800 * 1 ^ 2 * Real.pi) = 10 / Real.pi by
        rw [div_eq_div_iff (by positivity) Real.pi_ne_zero]
        ring]
      exact round3_div_pi 10 3183 (by norm_num) (by norm_num) (by norm_num)

end GradientInfill

namespace GradientInfill

/-- C3 (witness): the remainder-site conjunct of the theorem applied at a
remainder of length 5 of a move of length 10 with `E = 1`. -/
theorem C3_witness :
    (5 : ℝ) ≠ 0 ∧
    linear_remainder_feedF ⟨.LINEAR, 550, 50, 20, 5, 20, 7 / 4, true⟩ 1 10 =
      spec_feed_override 20 5 ((5 : ℝ) / 10 * 1 * 550 / 100) (7 / 4) :=
  ⟨by norm_num,
   C3_feed_override_formula.2.2.1 ⟨.LINEAR, 550, 50, 20, 5, 20, 7 / 4, true⟩ 1 10 5 (by norm_num)⟩

end GradientInfill

namespace GradientInfill

theorem except_bind_ok_inv {ε α β : Type} {x : Except ε α} {f : α → Except ε β} {b : β}
    (h : x >>= f = .ok b) : ∃ a, x = .ok a ∧ f a = .ok b := by
  cases x with
  | error e => simp [Bind.bind, Except.bind] at h
  | ok a => exact ⟨a, rfl, by simpa [Bind.bind, Except.bind] using h⟩

theorem prog_type_not_layer (l : Line) (h : prog_type_matches l = true) :
    is_begin_layer_line l = false := by
  unfold prog_type_matches startswith at h
  unfold is_begin_layer_line startswith
  rw [List.isPrefixOf_iff_prefix] at h
  obtain ⟨t, rfl⟩ := h
  simp [List.isPrefixOf]

theorem orcaStep_marker (p : Params) (st : OrcaState) (l : Line)
    (h : prog_type_matches l = true) :
    orcaStep p st l =
      .ok ({ st with ignore_pos := is_start_gcode l, currentSection := orcaTypeSection l },
        [.raw l]) := by
  unfold orcaStep
  rw [prog_type_not_layer l h]
  simp [h]

end GradientInfill

namespace GradientInfill

theorem orcaWallCollect_section (st0 st1 : OrcaState) (l : Line)
    (h : orcaWallCollect st0 l = .ok st1) : st1.currentSection = st0.currentSection := by
  unfold orcaWallCollect at h
  split at h
  · obtain ⟨pnt, hx, h⟩ := except_bind_ok_inv h
    simp only [Except.ok.injEq] at h
    rw [← h]
  · simp only [Except.ok.injEq] at h
    rw [← h]

theorem orcaFBranch_section (st1 : OrcaState) (l : Line) (r : OrcaState × List OutLine × Bool)
    (h : orcaFBranch st1 l = .ok r) : r.1.currentSection = st1.currentSection := by
  unfold orcaFBranch at h
  split at h
  · split at h
    · split at h <;> (simp only [Except.ok.injEq] at h; rw [← h])
    · exact absurd h (by simp)
  · simp only [Except.ok.injEq] at h
    rw [← h]

theorem orcaInfillHandle_section (p : Params) (st1 : OrcaState) (l : Line)
    (r : OrcaState × List OutLine × Bool)
    (h : orcaInfillHandle p st1 l = .ok r) : r.1.currentSection = st1.currentSection := by
  unfold orcaInfillHandle at h
  split at h
  · obtain ⟨r1, hr1, h⟩ := except_bind_ok_inv h
    have hf := orcaFBranch_section st1 l r1 hr1
    split at h
    · obtain ⟨cur, hcur, h⟩ := except_bind_ok_inv h
      split at h
      · obtain ⟨res, hres, h⟩ := except_bind_ok_inv h
        simp only [Except.ok.injEq] at h
        rw [← h]
        exact hf
      · obtain ⟨res, hres, h⟩ := except_bind_ok_inv h
        simp only [Except.ok.injEq] at h
        rw [← h]
        exact hf
    · simp only [Except.ok.injEq] at h
      rw [← h]
      exact hf
  · simp only [Except.ok.injEq] at h
    rw [← h]

theorem orcaPosUpdate_section (st2 st3 : OrcaState) (l : Line)
    (h : orcaPosUpdate st2 l = .ok st3) : st3.currentSection = st2.currentSection := by
  unfold orcaPosUpdate at h
  split at h
  · obtain ⟨pnt, hx, h⟩ := except_bind_ok_inv h
    simp only [Except.ok.injEq] at h
    rw [← h]
  · simp only [Except.ok.injEq] at h
    rw [← h]

theorem orcaStep_section_invariant (p : Params) (st : OrcaState) (l : Line) (st' : OrcaState)
    (out : List OutLine) (hpt : prog_type_matches l = false)
    (hok : orcaStep p st l = .ok (st', out)) :
    st'.currentSection = st.currentSection := by
  unfold orcaStep at hok
  rw [hpt] at hok
  simp only [Bool.false_eq_true, if_false] at hok
  have h0 : (if is_begin_layer_line l then { st with perimeterSegments := [] } else st).currentSection
      = st.currentSection := by split <;> rfl
  obtain ⟨st1, hB1, hok⟩ := except_bind_ok_inv hok
  obtain ⟨r2, hB2, hok⟩ := except_bind_ok_inv hok
  obtain ⟨st3, hB3, hok⟩ := except_bind_ok_inv hok
  have h4 : st'.currentSection = st3.currentSection := by
    split at hok <;> (simp only [Except.ok.injEq, Prod.mk.injEq] at hok; rw [← hok.1])
  rw [h4, orcaPosUpdate_section _ _ _ hB3, orcaInfillHandle_section _ _ _ _ hB2,
    orcaWallCollect_section _ _ _ hB1, h0]

end GradientInfill

namespace GradientInfill

theorem prog_type_not_move (l : Line) (h : prog_type_matches l = true) : prog_move l = false := by
  unfold prog_type_matches startswith at h
  rw [List.isPrefixOf_iff_prefix] at h
  obtain ⟨t, rfl⟩ := h
  rfl

theorem prusaWallCollect_section (st1 st2 : PrusaState) (l : Line)
    (h : prusaWallCollect st1 l = .ok st2) : st2.currentSection = st1.currentSection := by
  unfold prusaWallCollect at h
  split at h
  · obtain ⟨pnt, hx, h⟩ := except_bind_ok_inv h
    simp only [Except.ok.injEq] at h
    rw [← h]
  · simp only [Except.ok.injEq] at h
    rw [← h]

theorem prusaInfillHandle_section (p : Params) (st2 : PrusaState) (l : Line)
    (r : PrusaState × List OutLine × Bool)
    (h : prusaInfillHandle p st2 l = .ok r) : r.1.currentSection = st2.currentSection := by
  unfold prusaInfillHandle at h
  split at h
  · obtain ⟨outF, houtF, h⟩ := except_bind_ok_inv h
    split at h
    · obtain ⟨cur, hcur, h⟩ := except_bind_ok_inv h
      split at h
      · obtain ⟨res, hres, h⟩ := except_bind_ok_inv h
        simp only [Except.ok.injEq] at h
        rw [← h]
      · obtain ⟨res, hres, h⟩ := except_bind_ok_inv h
        simp only [Except.ok.injEq] at h
        rw [← h]
    · simp only [Except.ok.injEq] at h
      rw [← h]
  · simp only [Except.ok.injEq] at h
    rw [← h]

theorem prusaPosUpdate_section (st3 st4 : PrusaState) (l : Line)
    (h : prusaPosUpdate st3 l = .ok st4) : st4.currentSection = st3.currentSection := by
  unfold prusaPosUpdate at h
  split at h
  · obtain ⟨pnt, hx, h⟩ := except_bind_ok_inv h
    simp only [Except.ok.injEq] at h
    rw [← h]
  · simp only [Except.ok.injEq] at h
    rw [← h]

theorem prusaBody_section (p : Params) (st1 : PrusaState) (l : Line) (st' : PrusaState)
    (out : List OutLine) (h : prusaBody p st1 l = .ok (st', out)) :
    st'.currentSection = st1.currentSection := by
  unfold prusaBody at h
  obtain ⟨st2, h2, h⟩ := except_bind_ok_inv h
  obtain ⟨r3, h3, h⟩ := except_bind_ok_inv h
  obtain ⟨st4, h4, h⟩ := except_bind_ok_inv h
  have hlast : st'.currentSection = st4.currentSection := by
    split at h <;> (simp only [Except.ok.injEq, Prod.mk.injEq] at h; rw [← h.1])
  rw [hlast, prusaPosUpdate_section _ _ _ h4, prusaInfillHandle_section _ _ _ _ h3,
    prusaWallCollect_section _ _ _ h2]

theorem prusaStep_section_invariant (p : Params) (b : ℤ) (st : PrusaState) (l : Line)
    (st' : PrusaState) (out : List OutLine) (hpt : prog_type_matches l = false)
    (hok : prusaStep p b st l = .ok (st', out)) :
    st'.currentSection = st.currentSection := by
  unfold prusaStep at hok
  rw [hpt] at hok
  simp only [Bool.false_eq_true, if_false] at hok
  split at hok <;> split at hok <;>
    first
    | exact (prusaBody_section _ _ _ _ _ hok).trans rfl
    | (simp only [Except.ok.injEq, Prod.mk.injEq] at hok
       rw [← hok.1])

end GradientInfill

namespace GradientInfill

theorem prog_type_not_extrusion (l : Line) (h : prog_type_matches l = true) :
    prog_extrusion l = false := by
  unfold prog_type_matches startswith at h
  rw [List.isPrefixOf_iff_prefix] at h
  obtain ⟨t, rfl⟩ := h
  rfl

theorem prusaBody_marker (p : Params) (st1 : PrusaState) (l : Line)
    (hpt : prog_type_matches l = true) (hG1 : substr ('G' :: ['1']) l = false) :
    prusaBody p st1 l =
      if st1.currentSection = Section.INNER_WALL then .ok (st1, ([] : List OutLine))
      else .ok (st1, [OutLine.raw l]) := by
  have hext : is_extrusion_line l = false := by
    simp [is_extrusion_line, hG1]
  have hwc : prusaWallCollect st1 l = .ok st1 := by
    unfold prusaWallCollect
    rw [if_neg]
    simp [hext]
  have hih : prusaInfillHandle p st1 l = .ok (st1, ([] : List OutLine), false) := by
    unfold prusaInfillHandle
    split
    · have hfb : prusaFBranch l = .ok ([] : List OutLine) := by
        unfold prusaFBranch
        rw [if_neg]
        simp [hG1]
      rw [hfb]
      dsimp only [Bind.bind, Except.bind]
      rw [prog_type_not_extrusion l hpt]
      simp
    · rfl
  have hpu : prusaPosUpdate st1 l = .ok st1 := by
    unfold prusaPosUpdate
    rw [if_neg]
    simp [prog_type_not_move l hpt]
  unfold prusaBody
  rw [hwc]
  dsimp only [Bind.bind, Except.bind]
  rw [hih]
  dsimp only [Bind.bind, Except.bind]
  rw [hpu]
  dsimp only [Bind.bind, Except.bind]
  by_cases hs : st1.currentSection = Section.INNER_WALL
  · simp [hs]
  · simp [hs]

theorem prusaStep_marker (p : Params) (b : ℤ) (st : PrusaState) (l : Line)
    (hpt : prog_type_matches l = true) (hG1 : substr ('G' :: ['1']) l = false)
    (hgate : b < st.layer_count) :
    prusaStep p b st l =
      if prusa_is_begin_inner_wall_line l then
        .ok ({ st with currentSection := Section.INNER_WALL }, ([] : List OutLine))
      else if prusa_is_end_inner_wall_line l then
        .ok ({ st with currentSection := Section.INNER_WALL }, ([] : List OutLine))
      else if prusa_is_begin_infill_segment_line l then
        .ok ({ st with currentSection := Section.INFILL }, [OutLine.raw l])
      else
        .ok ({ st with currentSection := Section.NOTHING }, [OutLine.raw l]) := by
  unfold prusaStep
  rw [prog_type_not_layer l hpt]
  simp only [Bool.false_eq_true, if_false]
  rw [if_pos hgate, hpt]
  simp only [if_true]
  by_cases h1 : prusa_is_begin_inner_wall_line l = true
  · rw [h1]
    simp only [if_true]
    rw [prusaBody_marker p _ l hpt hG1]
    rfl
  · rw [Bool.not_eq_true] at h1
    rw [h1]
    simp only [Bool.false_eq_true, if_false]
    by_cases h2 : prusa_is_end_inner_wall_line l = true
    · rw [h2]
      rfl
    · rw [Bool.not_eq_true] at h2
      rw [h2]
      simp only [Bool.false_eq_true, if_false]
      by_cases h3 : prusa_is_begin_infill_segment_line l = true
      · rw [h3]
        rfl
      · rw [Bool.not_eq_true] at h3
        rw [h3]
        simp only [Bool.false_eq_true, if_false]
        rw [prusaBody_marker p _ l hpt hG1]
        rfl

end GradientInfill

namespace GradientInfill

/-- C5 (counterexample): in the Prusa variant (past the bottom layers) the
inner-wall-end marker `";TYPE:External perimeter"` sets the section to
INNER_WALL — not NOTHING as the claim states — and the marker line is
dropped instead of being emitted unmodified. -/
theorem C5_counterexample_prusa_end_marker :
    prusaStep ⟨.SMALL_SEGMENTS, 550, 50, 20, 5, 20, 2, true⟩ 0 prusaInit
        (";TYPE:External perimeter\n".toList) =
      .ok ({ prusaInit with currentSection := Section.INNER_WALL }, ([] : List OutLine)) ∧
    Section.INNER_WALL ≠ Section.NOTHING :=
  ⟨rfl, by decide⟩

/-- C5 (amended): in the Orca variant the claim holds as stated — a
`;TYPE:` marker line is emitted unmodified with no further processing and
the section becomes INNER_WALL on inner-wall-begin, NOTHING on
inner-wall-end or an unrecognized marker, and INFILL on infill-begin; every
non-marker line leaves the section unchanged.  In the Prusa variant (past
the configured bottom layers; markers do not contain the text `G1`), both
the inner-wall-begin and the inner-wall-end markers set the section to
INNER_WALL and the marker line is dropped; the infill-begin marker sets
INFILL and is emitted; any other `;TYPE:` marker sets NOTHING and is
emitted; non-marker lines leave the section unchanged. -/
theorem C5_section_classifier :
    (∀ p st l, prog_type_matches l = true →
      orcaStep p st l =
        .ok ({ st with ignore_pos := is_start_gcode l, currentSection := orcaTypeSection l },
          [OutLine.raw l])) ∧
    (∀ l, (is_begin_inner_wall_line l = true → orcaTypeSection l = Section.INNER_WALL) ∧
      (is_begin_inner_wall_line l = false → is_end_inner_wall_line l = true →
        orcaTypeSection l = Section.NOTHING) ∧
      (is_begin_inner_wall_line l = false → is_end_inner_wall_line l = false →
        is_begin_infill_segment_line l = true → orcaTypeSection l = Section.INFILL) ∧
      (is_begin_inner_wall_line l = false → is_end_inner_wall_line l = false →
        is_begin_infill_segment_line l = false → orcaTypeSection l = Section.NOTHING)) ∧
    (∀ p st l st' out, prog_type_matches l = false → orcaStep p st l = .ok (st', out) →
      st'.currentSection = st.currentSection) ∧
    (∀ p b st l, prog_type_matches l = true → substr ('G' :: ['1']) l = false →
      b < st.layer_count →
      prusaStep p b st l =
        if prusa_is_begin_inner_wall_line l then
          .ok ({ st with currentSection := Section.INNER_WALL }, ([] : List OutLine))
        else if prusa_is_end_inner_wall_line l then
          .ok ({ st with currentSection := Section.INNER_WALL }, ([] : List OutLine))
        else if prusa_is_begin_infill_segment_line l then
          .ok ({ st with currentSection := Section.INFILL }, [OutLine.raw l])
        else
          .ok ({ st with currentSection := Section.NOTHING }, [OutLine.raw l])) ∧
    (∀ p b st l st' out, prog_type_matches l = false → prusaStep p b st l = .ok (st', out) →
      st'.currentSection = st.currentSection) := by
  refine ⟨orcaStep_marker, ?_, orcaStep_section_invariant, prusaStep_marker,
    prusaStep_section_invariant⟩
  intro l
  refine ⟨?_, ?_, ?_, ?_⟩
  · intro h1
    unfold orcaTypeSection
    rw [h1]
    rfl
  · intro h1 h2
    unfold orcaTypeSection
    rw [h1, h2]
    rfl
  · intro h1 h2 h3
    unfold orcaTypeSection
    rw [h1, h2, h3]
    rfl
  · intro h1 h2 h3
    unfold orcaTypeSection
    rw [h1, h2, h3]
    rfl

/-- C5 (witness): the amended theorem applied to the Orca variant at the
outer-wall marker (section becomes NOTHING, line emitted) and at a plain
comment line (section preserved), and to the Prusa variant at the
inner-wall-end marker. -/
theorem C5_witness :
    (prog_type_matches (";TYPE:Outer wall\n".toList) = true ∧
      orcaStep ⟨.SMALL_SEGMENTS, 550, 50, 20, 5, 20, 2, true⟩ orcaInit
          (";TYPE:Outer wall\n".toList) =
        .ok ({ orcaInit with ignore_pos := is_start_gcode (";TYPE:Outer wall\n".toList), currentSection := orcaTypeSection (";TYPE:Outer wall\n".toList) },
          [OutLine.raw (";TYPE:Outer wall\n".toList)])) ∧
    (prog_type_matches ("; hello\n".toList) = false ∧
      orcaStep ⟨.SMALL_SEGMENTS, 550, 50, 20, 5, 20, 2, true⟩ orcaInit ("; hello\n".toList) =
        .ok (orcaInit, [OutLine.raw ("; hello\n".toList)]) ∧
      orcaInit.currentSection = orcaInit.currentSection) ∧
    (prusaStep ⟨.SMALL_SEGMENTS, 550, 50, 20, 5, 20, 2, true⟩ 0 prusaInit
        (";TYPE:External perimeter\n".toList) =
      if prusa_is_begin_inner_wall_line (";TYPE:External perimeter\n".toList) then
        .ok ({ prusaInit with currentSection := Section.INNER_WALL }, ([] : List OutLine))
      else if prusa_is_end_inner_wall_line (";TYPE:External perimeter\n".toList) then
        .ok ({ prusaInit with currentSection := Section.INNER_WALL }, ([] : List OutLine))
      else if prusa_is_begin_infill_segment_line (";TYPE:External perimeter\n".toList) then
        .ok ({ prusaInit with currentSection := Section.INFILL },
          [OutLine.raw (";TYPE:External perimeter\n".toList)])
      else
        .ok ({ prusaInit with currentSection := Section.NOTHING },
          [OutLine.raw (";TYPE:External perimeter\n".toList)])) :=
  ⟨⟨by decide, C5_section_classifier.1 _ orcaInit _ (by decide)⟩,
   ⟨by decide,
    rfl,
    C5_section_classifier.2.2.1 ⟨.SMALL_SEGMENTS, 550, 50, 20, 5, 20, 2, true⟩ orcaInit
      ("; hello\n".toList) orcaInit [OutLine.raw ("; hello\n".toList)] (by decide) rfl⟩,
   C5_section_classifier.2.2.2.1 ⟨.SMALL_SEGMENTS, 550, 50, 20, 5, 20, 2, true⟩ 0 prusaInit
     (";TYPE:External perimeter\n".toList) (by decide) (by decide) (by decide)⟩

end GradientInfill

namespace GradientInfill

theorem startswith_ne_head (l : Line) (c : Char) (a : Line) (d : Char) (b : Line)
    (hcd : d ≠ c) (h : startswith l (c :: a) = true) : startswith l (d :: b) = false := by
  unfold startswith at *
  rw [List.isPrefixOf_iff_prefix] at h
  obtain ⟨t, rfl⟩ := h
  simp [List.isPrefixOf, hcd]

/-- A line starting with `G2 ` or `G3 ` matches no pattern whose prefix
starts with a semicolon. -/
theorem arc_not_prefix (l p : Line) (hp : p.head? = some ';')
    (hl : startswith l ("G2 ".toList) = true ∨ startswith l ("G3 ".toList) = true) :
    startswith l p = false := by
  cases p with
  | nil => simp at hp
  | cons c q =>
      simp only [List.head?_cons, Option.some.injEq] at hp
      subst hp
      cases hl with
      | inl h => exact startswith_ne_head l 'G' _ ';' q (by decide) h
      | inr h => exact startswith_ne_head l 'G' _ ';' q (by decide) h

theorem arc_not_move (l : Line)
    (hl : startswith l ("G2 ".toList) = true ∨ startswith l ("G3 ".toList) = true) :
    prog_move l = false := by
  cases hl with
  | inl h =>
      unfold startswith at h
      rw [List.isPrefixOf_iff_prefix] at h
      obtain ⟨t, rfl⟩ := h
      rfl
  | inr h =>
      unfold startswith at h
      rw [List.isPrefixOf_iff_prefix] at h
      obtain ⟨t, rfl⟩ := h
      rfl

theorem arc_not_extrusion (l : Line)
    (hl : startswith l ("G2 ".toList) = true ∨ startswith l ("G3 ".toList) = true) :
    prog_extrusion l = false := by
  cases hl with
  | inl h =>
      unfold startswith at h
      rw [List.isPrefixOf_iff_prefix] at h
      obtain ⟨t, rfl⟩ := h
      rfl
  | inr h =>
      unfold startswith at h
      rw [List.isPrefixOf_iff_prefix] at h
      obtain ⟨t, rfl⟩ := h
      rfl

theorem uDetectSlicer_arc (sl : Slicer) (l : Line)
    (hl : startswith l ("G2 ".toList) = true ∨ startswith l ("G3 ".toList) = true) :
    uDetectSlicer sl l = sl := by
  have h1 : startswith l ("; generated by PrusaSlicer".toList) = false :=
    arc_not_prefix l _ (by decide) hl
  have h2 : startswith l ("; BambuStudio".toList) = false :=
    arc_not_prefix l _ (by decide) hl
  have h3 : startswith l (";Generated with Cura_SteamEngine".toList) = false :=
    arc_not_prefix l _ (by decide) hl
  have h4 : startswith l ("; generated by OrcaSlicer".toList) = false :=
    arc_not_prefix l _ (by decide) hl
  have h5 : startswith l ("; printer_model = Bambu".toList) = false :=
    arc_not_prefix l _ (by decide) hl
  unfold uDetectSlicer
  rw [h1, h2, h3, h4, h5]
  simp

theorem u_is_begin_layer_arc (sl : Slicer) (l : Line)
    (hl : startswith l ("G2 ".toList) = true ∨ startswith l ("G3 ".toList) = true) :
    u_is_begin_layer_line sl l = false := by
  cases sl with
  | SEARCH => rfl
  | ORCA => exact arc_not_prefix l _ (by decide) hl
  | PRUSA => exact arc_not_prefix l _ (by decide) hl
  | BAMBU => exact arc_not_prefix l _ (by decide) hl
  | CURA => exact arc_not_prefix l _ (by decide) hl

theorem u_prog_type_arc (sl : Slicer) (l : Line)
    (hl : startswith l ("G2 ".toList) = true ∨ startswith l ("G3 ".toList) = true) :
    u_prog_type sl l = false := by
  unfold u_prog_type
  split
  · exact arc_not_prefix l _ (by decide) hl
  · exact arc_not_prefix l _ (by decide) hl

theorem uWidthInfill_arc (stA : UState) (l : Line)
    (hl : startswith l ("G2 ".toList) = true ∨ startswith l ("G3 ".toList) = true) :
    uWidthInfill stA l = .ok stA := by
  have h1 : startswith l ("; infill extrusion width = ".toList) = false :=
    arc_not_prefix l _ (by decide) hl
  have h2 : startswith l ("; sparse_infill_line_width = ".toList) = false :=
    arc_not_prefix l _ (by decide) hl
  unfold uWidthInfill
  rw [if_neg]
  simp only [not_or, Bool.not_eq_true]
  exact ⟨h1, h2⟩

theorem uWidthWall_arc (stB : UState) (l : Line)
    (hl : startswith l ("G2 ".toList) = true ∨ startswith l ("G3 ".toList) = true) :
    uWidthWall stB l = .ok stB := by
  have h1 : startswith l ("; perimeters extrusion width = ".toList) = false :=
    arc_not_prefix l _ (by decide) hl
  have h2 : startswith l ("; inner_wall_line_width = ".toList) = false :=
    arc_not_prefix l _ (by decide) hl
  unfold uWidthWall
  rw [if_neg]
  simp only [not_or, Bool.not_eq_true]
  exact ⟨h1, h2⟩

theorem universalStep_arc (p : Params) (st : UState) (l : Line)
    (hl : startswith l ("G2 ".toList) = true ∨ startswith l ("G3 ".toList) = true) :
    universalStep p st l = .error .typeErr := by
  unfold universalStep
  rw [uDetectSlicer_arc st.slicer l hl]
  dsimp only
  rw [uWidthInfill_arc _ l hl]
  dsimp only [Bind.bind, Except.bind]
  rw [uWidthWall_arc _ l hl]
  dsimp only [Bind.bind, Except.bind]
  rw [u_is_begin_layer_arc _ l hl]
  simp only [Bool.false_eq_true, if_false]
  rw [u_prog_type_arc _ l hl]
  simp only [Bool.false_eq_true, if_false]
  rw [if_pos hl]

end GradientInfill

namespace GradientInfill

theorem universalRun_arc_never_ok (p : Params) :
    ∀ (ls : List Line) (st : UState),
      (∃ l ∈ ls, startswith l ("G2 ".toList) = true ∨ startswith l ("G3 ".toList) = true) →
      ∀ r, universalRun p st ls ≠ .ok r := by
  intro ls
  induction ls with
  | nil =>
      intro st h r
      obtain ⟨l, hmem, _⟩ := h
      exact absurd hmem (List.not_mem_nil l)
  | cons a as ih =>
      intro st h r hok
      obtain ⟨l, hmem, harc⟩ := h
      unfold universalRun at hok
      rcases List.mem_cons.mp hmem with rfl | hmem'
      · rw [universalStep_arc p st l harc] at hok
        exact absurd hok (by simp [Bind.bind, Except.bind])
      · obtain ⟨r1, hstep, hok⟩ := except_bind_ok_inv hok
        obtain ⟨r2, hrun, hok⟩ := except_bind_ok_inv hok
        exact ih r1.1 ⟨l, hmem', harc⟩ r2 hrun

theorem orcaStep_arc_pass (p : Params) (st : OrcaState) (l : Line)
    (hl : startswith l ("G2 ".toList) = true ∨ startswith l ("G3 ".toList) = true)
    (hG1 : substr ('G' :: ['1']) l = false) :
    orcaStep p st l = .ok (st, [OutLine.raw l]) := by
  have hlayer : is_begin_layer_line l = false := arc_not_prefix l _ (by decide) hl
  have hpt : prog_type_matches l = false := arc_not_prefix l _ (by decide) hl
  have hext : is_extrusion_line l = false := by simp [is_extrusion_line, hG1]
  have hwc : orcaWallCollect st l = .ok st := by
    unfold orcaWallCollect
    rw [if_neg]
    simp [hext]
  have hih : orcaInfillHandle p st l = .ok (st, ([] : List OutLine), false) := by
    unfold orcaInfillHandle
    split
    · have hfb : orcaFBranch st l = .ok (st, ([] : List OutLine), false) := by
        unfold orcaFBranch
        rw [if_neg]
        simp [hG1]
      rw [hfb]
      dsimp only [Bind.bind, Except.bind]
      rw [arc_not_extrusion l hl]
      simp
    · rfl
  have hpu : orcaPosUpdate st l = .ok st := by
    unfold orcaPosUpdate
    rw [if_neg]
    simp [arc_not_move l hl]
  unfold orcaStep
  rw [hlayer, hpt]
  simp only [Bool.false_eq_true, if_false]
  rw [hwc]
  dsimp only [Bind.bind, Except.bind]
  rw [hih]
  dsimp only [Bind.bind, Except.bind]
  rw [hpu]
  dsimp only [Bind.bind, Except.bind]
  simp

/-- C7 (counterexample): the Orca variant does not abort on an arc move —
it passes a `G2` line through unchanged — so the claim's "in every variant
of the engine" is false. -/
theorem C7_counterexample_orca_arc_passthrough :
    orcaStep ⟨.SMALL_SEGMENTS, 550, 50, 20, 5, 20, 2, true⟩ orcaInit
        ("G2 X5 Y5 E1\n".toList) =
      .ok (orcaInit, [OutLine.raw ("G2 X5 Y5 E1\n".toList)]) := rfl

/-- C7 (amended): in the Universal variant, a line starting with `G2 ` or
`G3 ` makes the step raise `TypeError` for every state, and a run over any
file containing such a line never returns a result — hence no output is
ever committed (the source writes the output only after the loop
completes).  The Orca variant instead passes such a line through unchanged
(for arc lines not containing the text `G1`), with no abort. -/
theorem C7_arc_moves :
    (∀ (p : Params) (st : UState) (l : Line),
      startswith l ("G2 ".toList) = true ∨ startswith l ("G3 ".toList) = true →
      universalStep p st l = .error .typeErr) ∧
    (∀ (p : Params) (ls : List Line) (st : UState),
      (∃ l ∈ ls, startswith l ("G2 ".toList) = true ∨ startswith l ("G3 ".toList) = true) →
      ∀ r, universalRun p st ls ≠ .ok r) ∧
    (∀ (p : Params) (st : OrcaState) (l : Line),
      startswith l ("G2 ".toList) = true ∨ startswith l ("G3 ".toList) = true →
      substr ('G' :: ['1']) l = false →
      orcaStep p st l = .ok (st, [OutLine.raw l])) :=
  ⟨universalStep_arc, universalRun_arc_never_ok, orcaStep_arc_pass⟩

/-- C7 (witness): the amended theorem applied at the line `"G2 X5 Y5 E1"`,
for the Universal step, a one-line Universal run and the Orca step. -/
theorem C7_witness :
    (startswith ("G2 X5 Y5 E1\n".toList) ("G2 ".toList) = true ∨
      startswith ("G2 X5 Y5 E1\n".toList) ("G3 ".toList) = true) ∧
    universalStep ⟨.SMALL_SEGMENTS, 550, 50, 20, 5, 20, 2, true⟩
        ⟨.PRUSA, true, false, .NOTHING, ⟨0, 0⟩, [], none, none, none, none, none⟩
        ("G2 X5 Y5 E1\n".toList) = .error .typeErr ∧
    universalRun ⟨.SMALL_SEGMENTS, 550, 50, 20, 5, 20, 2, true⟩
        ⟨.PRUSA, true, false, .NOTHING, ⟨0, 0⟩, [], none, none, none, none, none⟩
        [("G2 X5 Y5 E1\n".toList)] ≠
      .ok (⟨.PRUSA, true, false, .NOTHING, ⟨0, 0⟩, [], none, none, none, none, none⟩, []) ∧
    orcaStep ⟨.SMALL_SEGMENTS, 550, 50, 20, 5, 20, 2, true⟩ orcaInit ("G2 X5 Y5 E1\n".toList) =
      .ok (orcaInit, [OutLine.raw ("G2 X5 Y5 E1\n".toList)]) :=
  ⟨Or.inl (by decide),
   C7_arc_moves.1 _ _ _ (Or.inl (by decide)),
   C7_arc_moves.2.1 _ _ _ ⟨_, List.mem_singleton_self _, Or.inl (by decide)⟩ _,
   C7_arc_moves.2.2 _ orcaInit _ (Or.inl (by decide)) (by decide)⟩

end GradientInfill

namespace GradientInfill

theorem prog_extrusion_move (l : Line) (h : prog_extrusion l = true) : prog_move l = true := by
  cases l with
  | nil => exact absurd h (by simp [prog_extrusion])
  | cons g t =>
      cases t with
      | nil => exact absurd h (by simp [prog_extrusion])
      | cons c rest =>
          simp only [prog_extrusion, decide_eq_true_eq] at h
          simp only [prog_move, decide_eq_true_eq]
          exact ⟨h.1, Or.inr h.2.1, List.Sublist.trans (by decide) h.2.2⟩

theorem searchGroup_isSome (c : Char) (l : Line) (h : c ∈ l) :
    (searchGroup c l).isSome = true := by
  induction l with
  | nil => exact absurd h (List.not_mem_nil c)
  | cons a rest ih =>
      unfold searchGroup
      by_cases hac : a = c
      · simp [hac]
      · rcases List.mem_cons.mp h with h1 | h2
        · exact absurd h1.symm hac
        · simp [hac, ih h2]

end GradientInfill

namespace GradientInfill

theorem orcaWallCollect_skip (st0 : OrcaState) (l : Line)
    (h : st0.currentSection ≠ Section.INNER_WALL ∨ is_extrusion_line l = false) :
    orcaWallCollect st0 l = .ok st0 := by
  unfold orcaWallCollect
  rw [if_neg]
  rintro ⟨h1, h2⟩
  rcases h with h | h
  · exact h h1
  · rw [h] at h2
    exact Bool.false_ne_true h2

theorem orcaWallCollect_collect (st0 : OrcaState) (l : Line) (pt : Point2D)
    (hs : st0.currentSection = Section.INNER_WALL)
    (hext : is_extrusion_line l = true) (hxy : getXY l = .ok pt) :
    orcaWallCollect st0 l =
      .ok { st0 with perimeterSegments := st0.perimeterSegments ++ [⟨pt, st0.lastPosition⟩] } := by
  unfold orcaWallCollect
  rw [if_pos ⟨hs, hext⟩, hxy]
  rfl

theorem orcaInfillHandle_skip (p : Params) (st1 : OrcaState) (l : Line)
    (h : st1.currentSection ≠ Section.INFILL) :
    orcaInfillHandle p st1 l = .ok (st1, ([] : List OutLine), false) := by
  unfold orcaInfillHandle
  rw [if_neg h]

theorem orcaFBranch_noE (st1 : OrcaState) (l : Line)
    (hcase : ¬('F' ∈ l ∧ substr ('G' :: ['1']) l = true ∧ 'E' ∈ l)) :
    ∃ stF, orcaFBranch st1 l = .ok (stF, ([] : List OutLine), false) := by
  unfold orcaFBranch
  by_cases hfg : 'F' ∈ l ∧ substr ('G' :: ['1']) l = true
  · rw [if_pos hfg]
    obtain ⟨sp, hsp⟩ := Option.isSome_iff_exists.mp (searchGroup_isSome 'F' l hfg.1)
    rw [hsp]
    have hE : ¬ 'E' ∈ l := fun hE => hcase ⟨hfg.1, hfg.2, hE⟩
    dsimp only
    rw [if_neg hE]
    exact ⟨_, rfl⟩
  · rw [if_neg hfg]
    exact ⟨st1, rfl⟩

theorem orcaInfillHandle_infill_pass (p : Params) (st1 : OrcaState) (l : Line)
    (hs : st1.currentSection = Section.INFILL)
    (hpe : prog_extrusion l = false)
    (hcase : ¬('F' ∈ l ∧ substr ('G' :: ['1']) l = true ∧ 'E' ∈ l)) :
    ∃ stF, orcaInfillHandle p st1 l = .ok (stF, ([] : List OutLine), false) := by
  obtain ⟨stF, hfb⟩ := orcaFBranch_noE st1 l hcase
  refine ⟨stF, ?_⟩
  unfold orcaInfillHandle
  rw [if_pos hs, hfb]
  dsimp only [Bind.bind, Except.bind]
  rw [hpe]
  simp

theorem orcaPosUpdate_skip (st2 : OrcaState) (l : Line) (hpm : prog_move l = false) :
    orcaPosUpdate st2 l = .ok st2 := by
  unfold orcaPosUpdate
  rw [if_neg]
  simp [hpm]

theorem not_extrusion_of_not_move (l : Line) (hpm : prog_move l = false) :
    prog_extrusion l = false := by
  cases hb : prog_extrusion l
  · rfl
  · rw [prog_extrusion_move l hb] at hpm
    exact absurd hpm (by simp)

theorem orcaStep_passthrough (p : Params) (st : OrcaState) (l : Line)
    (hpt : prog_type_matches l = false) (hpm : prog_move l = false)
    (hcase :
      st.currentSection = Section.NOTHING ∨
      (st.currentSection = Section.INNER_WALL ∧
        (is_extrusion_line l = false ∨ ∃ pt, getXY l = .ok pt)) ∨
      (st.currentSection = Section.INFILL ∧
        ¬('F' ∈ l ∧ substr ('G' :: ['1']) l = true ∧ 'E' ∈ l))) :
    ∃ st', orcaStep p st l = .ok (st', [OutLine.raw l]) := by
  have hpe : prog_extrusion l = false := not_extrusion_of_not_move l hpm
  unfold orcaStep
  rw [hpt]
  simp only [Bool.false_eq_true, if_false]
  set st0 := if is_begin_layer_line l then { st with perimeterSegments := [] } else st with hst0
  have hs0 : st0.currentSection = st.currentSection := by
    rw [hst0]
    split <;> rfl
  have finish : ∀ st1 : OrcaState, orcaWallCollect st0 l = .ok st1 →
      orcaInfillHandle p st1 l = .ok (st1, ([] : List OutLine), false) →
      ∃ st', (orcaWallCollect st0 l >>= fun st1 =>
        orcaInfillHandle p st1 l >>= fun r2 =>
        orcaPosUpdate r2.1 l >>= fun st3 =>
        if r2.2.2 then Except.ok (st3, r2.2.1) else Except.ok (st3, r2.2.1 ++ [OutLine.raw l])) =
        .ok (st', [OutLine.raw l]) := by
    intro st1 hwc hih
    refine ⟨st1, ?_⟩
    rw [hwc]
    dsimp only [Bind.bind, Except.bind]
    rw [hih]
    dsimp only [Bind.bind, Except.bind]
    rw [orcaPosUpdate_skip st1 l hpm]
    dsimp only [Bind.bind, Except.bind]
    simp
  rcases hcase with hs | ⟨hs, hsub⟩ | ⟨hs, hsub⟩
  · exact finish st0 (orcaWallCollect_skip st0 l (Or.inl (by rw [hs0, hs]; simp)))
      (orcaInfillHandle_skip p st0 l (by rw [hs0, hs]; simp))
  · rcases hsub with hext | ⟨pt, hxy⟩
    · exact finish st0 (orcaWallCollect_skip st0 l (Or.inr hext))
        (orcaInfillHandle_skip p st0 l (by rw [hs0, hs]; simp))
    · by_cases hext : is_extrusion_line l = true
      · refine finish _ (orcaWallCollect_collect st0 l pt (by rw [hs0, hs]) hext hxy)
          (orcaInfillHandle_skip p _ l (by rw [hs0] at *; rw [hs]; simp))
      · rw [Bool.not_eq_true] at hext
        exact finish st0 (orcaWallCollect_skip st0 l (Or.inr hext))
          (orcaInfillHandle_skip p st0 l (by rw [hs0, hs]; simp))
  · have hwc := orcaWallCollect_skip st0 l (Or.inl (by rw [hs0, hs]; simp))
    obtain ⟨stF, hih⟩ := orcaInfillHandle_infill_pass p st0 l (by rw [hs0, hs]) hpe hsub
    refine ⟨stF, ?_⟩
    rw [hwc]
    dsimp only [Bind.bind, Except.bind]
    rw [hih]
    dsimp only [Bind.bind, Except.bind]
    rw [orcaPosUpdate_skip stF l hpm]
    dsimp only [Bind.bind, Except.bind]
    simp

end GradientInfill

namespace GradientInfill

theorem prusaPosUpdate_skip (st3 : PrusaState) (l : Line) (hpm : prog_move l = false) :
    prusaPosUpdate st3 l = .ok st3 := by
  unfold prusaPosUpdate
  rw [hpm]
  simp

theorem prusaFBranch_ok (l : Line) : ∃ outF, prusaFBranch l = .ok outF := by
  unfold prusaFBranch
  by_cases hfg : 'F' ∈ l ∧ substr ('G' :: ['1']) l = true
  · rw [if_pos hfg]
    obtain ⟨sp, hsp⟩ := Option.isSome_iff_exists.mp (searchGroup_isSome 'F' l hfg.1)
    rw [hsp]
    exact ⟨_, rfl⟩
  · rw [if_neg hfg]
    exact ⟨[], rfl⟩

theorem prusaBody_pass (p : Params) (st1 : PrusaState) (l : Line)
    (hpm : prog_move l = false) (hs : st1.currentSection ≠ Section.INNER_WALL) :
    ∃ out, prusaBody p st1 l = .ok (st1, out ++ [OutLine.raw l]) ∧
      (st1.currentSection = Section.NOTHING → out = []) := by
  have hpe : prog_extrusion l = false := not_extrusion_of_not_move l hpm
  have hwc : prusaWallCollect st1 l = .ok st1 := by
    unfold prusaWallCollect
    rw [if_neg]
    rintro ⟨h1, -⟩
    exact hs h1
  by_cases hinf : st1.currentSection = Section.INFILL
  · obtain ⟨outF, hfb⟩ := prusaFBranch_ok l
    have hih : prusaInfillHandle p st1 l = .ok (st1, outF, false) := by
      unfold prusaInfillHandle
      rw [if_pos hinf, hfb]
      dsimp only [Bind.bind, Except.bind]
      rw [hpe]
      simp
    refine ⟨outF, ?_, fun hn => absurd hn (by rw [hinf]; simp)⟩
    unfold prusaBody
    rw [hwc]
    dsimp only [Bind.bind, Except.bind]
    rw [hih]
    dsimp only [Bind.bind, Except.bind]
    rw [prusaPosUpdate_skip st1 l hpm]
    dsimp only [Bind.bind, Except.bind]
    simp [hs]
  · have hih : prusaInfillHandle p st1 l = .ok (st1, ([] : List OutLine), false) := by
      unfold prusaInfillHandle
      rw [if_neg hinf]
    refine ⟨[], ?_, fun _ => rfl⟩
    unfold prusaBody
    rw [hwc]
    dsimp only [Bind.bind, Except.bind]
    rw [hih]
    dsimp only [Bind.bind, Except.bind]
    rw [prusaPosUpdate_skip st1 l hpm]
    dsimp only [Bind.bind, Except.bind]
    simp [hs]

theorem prusaStep_passthrough (p : Params) (b : ℤ) (st : PrusaState) (l : Line)
    (hl : is_begin_layer_line l = false) (hpt : prog_type_matches l = false)
    (hpm : prog_move l = false) :
    (¬ b < st.layer_count → prusaStep p b st l = .ok (st, [OutLine.raw l])) ∧
    (b < st.layer_count → st.currentSection ≠ Section.INNER_WALL →
      ∃ out, prusaStep p b st l = .ok (st, out ++ [OutLine.raw l]) ∧
        (st.currentSection = Section.NOTHING → out = [])) := by
  have hstep : prusaStep p b st l =
      if b < st.layer_count then prusaBody p st l
      else Except.ok (st, [OutLine.raw l]) := by
    unfold prusaStep
    dsimp only
    rw [hl]
    simp only [Bool.false_eq_true, if_false]
    rw [hpt]
    simp only [Bool.false_eq_true, if_false]
  constructor
  · intro hg
    rw [hstep, if_neg hg]
  · intro hg hs
    obtain ⟨out, hbody, hnil⟩ := prusaBody_pass p st l hpm hs
    exact ⟨out, by rw [hstep, if_pos hg, hbody], hnil⟩

end GradientInfill

namespace GradientInfill

/-- Counterexample to the pass-through claim's "regardless of the current
section state": past the bottom layers, in the INNER_WALL section, the
Prusa variant deletes every line — `prusa_addGradientinfill.py` lines
339-341 set `writtenToFile = 1` for the whole section ("delete outer
perimeter").  A comment line matching neither the move pattern nor the
`;TYPE:` marker pattern is dropped from the output entirely. -/
theorem C8_counterexample_prusa_wall_drop :
    prusaStep ⟨.SMALL_SEGMENTS, 550, 50, 20, 5, 20, 2, true⟩ 0
        { prusaInit with currentSection := Section.INNER_WALL }
        ("; thumbnail begin\n".toList) =
      .ok ({ prusaInit with currentSection := Section.INNER_WALL }, ([] : List OutLine)) ∧
    prog_type_matches ("; thumbnail begin\n".toList) = false ∧
    prog_move ("; thumbnail begin\n".toList) = false :=
  ⟨rfl, rfl, rfl⟩

end GradientInfill

namespace GradientInfill

/-- C8 (amended): a line matching neither the move pattern (`^G[0-1].*X.*Y`)
nor the type-marker pattern (`;TYPE:`) passes through byte-identical with
the following exceptions.  Orca variant (`OrcaGradientInfill.py` lines
307-308): the line is emitted unchanged whenever the section is NOTHING, or
the section is INNER_WALL and the line is either not an extrusion line or
has parseable coordinates, or the section is INFILL and the line does not
contain all of `F`, `G1` and `E` (a `G1 F.. E..` speed line in the INFILL
section is *replaced* by a reformatted feed line, and an INNER_WALL
extrusion line with unparseable coordinates aborts the run instead).
Prusa variant (`prusa_addGradientinfill.py` lines 339-341): at or below the
configured bottom layers the line is emitted unchanged; above them, if the
section is not INNER_WALL the line is emitted byte-identical as the last
output line for that input (preceded by a reformatted feed line when the
line is an INFILL-section `G1 F..` line, and by nothing at all in the
NOTHING section); in the INNER_WALL section the line is deleted. -/
theorem C8_passthrough :
    (∀ (p : Params) (st : OrcaState) (l : Line),
      prog_type_matches l = false → prog_move l = false →
      (st.currentSection = Section.NOTHING ∨
       (st.currentSection = Section.INNER_WALL ∧
         (is_extrusion_line l = false ∨ ∃ pt, getXY l = .ok pt)) ∨
       (st.currentSection = Section.INFILL ∧
         ¬('F' ∈ l ∧ substr ('G' :: ['1']) l = true ∧ 'E' ∈ l))) →
      ∃ st', orcaStep p st l = .ok (st', [OutLine.raw l])) ∧
    (∀ (p : Params) (b : ℤ) (st : PrusaState) (l : Line),
      is_begin_layer_line l = false → prog_type_matches l = false →
      prog_move l = false →
      (¬ b < st.layer_count → prusaStep p b st l = .ok (st, [OutLine.raw l])) ∧
      (b < st.layer_count → st.currentSection ≠ Section.INNER_WALL →
        ∃ out, prusaStep p b st l = .ok (st, out ++ [OutLine.raw l]) ∧
          (st.currentSection = Section.NOTHING → out = []))) :=
  ⟨fun p st l hpt hpm hcase => orcaStep_passthrough p st l hpt hpm hcase,
   fun p b st l hl hpt hpm => prusaStep_passthrough p b st l hl hpt hpm⟩

/-- Witness for the amended pass-through theorem at a concrete comment line
in the initial states of both variants. -/
theorem C8_witness :
    (∃ st', orcaStep ⟨.SMALL_SEGMENTS, 550, 50, 20, 5, 20, 2, true⟩ orcaInit
        ("; estimated printing time\n".toList) =
      .ok (st', [OutLine.raw ("; estimated printing time\n".toList)])) ∧
    (∃ out, prusaStep ⟨.SMALL_SEGMENTS, 550, 50, 20, 5, 20, 2, true⟩ 0 prusaInit
        ("; estimated printing time\n".toList) =
      .ok (prusaInit, out ++ [OutLine.raw ("; estimated printing time\n".toList)]) ∧
      (prusaInit.currentSection = Section.NOTHING → out = [])) := by
  have h := C8_passthrough
  exact ⟨h.1 ⟨.SMALL_SEGMENTS, 550, 50, 20, 5, 20, 2, true⟩ orcaInit
      ("; estimated printing time\n".toList) rfl rfl (Or.inl rfl),
    (h.2 ⟨.SMALL_SEGMENTS, 550, 50, 20, 5, 20, 2, true⟩ 0 prusaInit
      ("; estimated printing time\n".toList) rfl rfl rfl).2 (by decide)
      (fun hsec => Section.noConfusion hsec)⟩

end GradientInfill

namespace GradientInfill

/-- The point reached after `k` iterations of the LINEAR subdivision loop
starting from `pos`: each iteration advances `lastPosition` by the
`segmentDirection` vector. -/
noncomputable def stepPoint (pos dir : Point2D) (k : ℕ) : Point2D :=
  ⟨pos.x + k * dir.x, pos.y + k * dir.y⟩

/-- The `segmentDirection` of the LINEAR handler
(`OrcaGradientInfill.py` lines 200-203): the unit direction from
`lastPosition` to `currentPosition` scaled by the discretization length. -/
noncomputable def linearDir (lastP cur : Point2D) (u : ℝ) : Point2D :=
  ⟨(cur.x - lastP.x) / get_points_distance lastP cur * u,
   (cur.y - lastP.y) / get_points_distance lastP cur * u⟩

/-- The flow factor the LINEAR loop computes for the sub-segment starting
at `pos` (shortest wall distance fed through `linear_flow_factor`);
junk value `0` when the wall set is empty (that case raises instead). -/
noncomputable def linearSubFF (p : Params) (perim : List Segment) (pos dir : Point2D) : ℝ :=
  match min_distance_from_segment ⟨pos, ⟨pos.x + dir.x, pos.y + dir.y⟩⟩ perim with
  | some d => linear_flow_factor p.gradient_thickness p.max_flow p.min_flow d
  | none => 0

theorem min_distance_isSome (s : Segment) (perim : List Segment) (h : perim ≠ []) :
    ∃ d, min_distance_from_segment s perim = some d := by
  cases perim with
  | nil => exact absurd rfl h
  | cons a rest => exact ⟨_, rfl⟩

theorem stepPoint_zero (pos dir : Point2D) : stepPoint pos dir 0 = pos := by
  unfold stepPoint
  cases pos
  simp

theorem stepPoint_shift (pos dir : Point2D) (n : ℕ) :
    stepPoint ⟨pos.x + dir.x, pos.y + dir.y⟩ dir n = stepPoint pos dir (n + 1) := by
  unfold stepPoint
  congr 1 <;> (push_cast; ring)

theorem get_points_distance_sq (a b : Point2D) :
    get_points_distance a b ^ 2 = (a.x - b.x) ^ 2 + (a.y - b.y) ^ 2 := by
  unfold get_points_distance
  exact Real.sq_sqrt (by positivity)

theorem stepPoint_remainder_dist (lastP cur : Point2D) (u : ℝ) (n : ℕ)
    (hL : 0 < get_points_distance lastP cur)
    (hn : (n : ℝ) * u ≤ get_points_distance lastP cur) :
    get_points_distance (stepPoint lastP (linearDir lastP cur u) n) cur =
      get_points_distance lastP cur - n * u := by
  set L := get_points_distance lastP cur with hLdef
  have hLne : L ≠ 0 := ne_of_gt hL
  have hL2 : L ^ 2 = (lastP.x - cur.x) ^ 2 + (lastP.y - cur.y) ^ 2 := get_points_distance_sq lastP cur
  have ht : 0 ≤ 1 - (n : ℝ) * u / L := by
    rw [sub_nonneg, div_le_one hL]
    exact hn
  have hA : (stepPoint lastP (linearDir lastP cur u) n).x - cur.x =
      (1 - (n : ℝ) * u / L) * (lastP.x - cur.x) := by
    unfold stepPoint linearDir
    dsimp only
    rw [← hLdef]
    field_simp
    ring
  have hB : (stepPoint lastP (linearDir lastP cur u) n).y - cur.y =
      (1 - (n : ℝ) * u / L) * (lastP.y - cur.y) := by
    unfold stepPoint linearDir
    dsimp only
    rw [← hLdef]
    field_simp
    ring
  have : get_points_distance (stepPoint lastP (linearDir lastP cur u) n) cur =
      Real.sqrt (((1 - (n : ℝ) * u / L) * L) ^ 2) := by
    unfold get_points_distance
    rw [hA, hB]
    congr 1
    rw [show ((1 - (n : ℝ) * u / L) * (lastP.x - cur.x)) ^ 2 +
        ((1 - (n : ℝ) * u / L) * (lastP.y - cur.y)) ^ 2 =
        (1 - (n : ℝ) * u / L) ^ 2 * ((lastP.x - cur.x) ^ 2 + (lastP.y - cur.y) ^ 2) from by ring,
      ← hL2]
    ring
  rw [this, Real.sqrt_sq (mul_nonneg ht hL.le)]
  field_simp

theorem stepPoint_consecutive_dist (lastP cur : Point2D) (u : ℝ) (k : ℕ)
    (hL : 0 < get_points_distance lastP cur) (hu : 0 ≤ u) :
    get_points_distance (stepPoint lastP (linearDir lastP cur u) k)
      (stepPoint lastP (linearDir lastP cur u) (k + 1)) = u := by
  set L := get_points_distance lastP cur with hLdef
  have hLne : L ≠ 0 := ne_of_gt hL
  have hL2 : L ^ 2 = (lastP.x - cur.x) ^ 2 + (lastP.y - cur.y) ^ 2 := get_points_distance_sq lastP cur
  have : get_points_distance (stepPoint lastP (linearDir lastP cur u) k)
      (stepPoint lastP (linearDir lastP cur u) (k + 1)) = Real.sqrt (u ^ 2) := by
    unfold get_points_distance stepPoint linearDir
    dsimp only
    rw [← hLdef]
    congr 1
    have hexp : ∀ a c : ℝ, lastP.x + a - (lastP.x + c) = a - c := fun a c => by ring
    push_cast
    rw [show (lastP.x + (k : ℝ) * ((cur.x - lastP.x) / L * u) -
        (lastP.x + ((k : ℝ) + 1) * ((cur.x - lastP.x) / L * u))) ^ 2 +
        (lastP.y + (k : ℝ) * ((cur.y - lastP.y) / L * u) -
        (lastP.y + ((k : ℝ) + 1) * ((cur.y - lastP.y) / L * u))) ^ 2 =
        (u / L) ^ 2 * ((lastP.x - cur.x) ^ 2 + (lastP.y - cur.y) ^ 2) from by ring, ← hL2]
    field_simp
  rw [this, Real.sqrt_sq hu]

end GradientInfill

namespace GradientInfill

theorem feedEmitLines_some_ok (fe : FeedEmit) (F : ℝ) (sp : Line) :
    ∃ ls, feedEmitLines fe F (some sp) = .ok ls ∧ movesOf ls = [] := by
  cases fe <;> exact ⟨_, rfl, rfl⟩

theorem movesOf_append (a b : List OutLine) : movesOf (a ++ b) = movesOf a ++ movesOf b :=
  List.filterMap_append a b _

theorem linearLoop_moves (fstep : Bool → Bool → FeedEmit × Bool) (p : Params)
    (perim : List Segment) (hperim : perim ≠ []) (fl : ℝ) (sp : Line)
    (eps : ℝ) (dir : Point2D) :
    ∀ (n : ℕ) (pos : Point2D) (flag : Bool),
      ∃ (flag' : Bool) (out : List OutLine) (endPos : Point2D),
        linearLoop fstep p perim fl (some sp) eps dir pos flag n = .ok (endPos, flag', out) ∧
        endPos = stepPoint pos dir n ∧
        movesOf out = (List.range n).map (fun k =>
          (stepPoint pos dir (k + 1), eps * linearSubFF p perim (stepPoint pos dir k) dir)) := by
  intro n
  induction n with
  | zero =>
      intro pos flag
      exact ⟨flag, [], pos, rfl, (stepPoint_zero pos dir).symm, rfl⟩
  | succ m ih =>
      intro pos flag
      obtain ⟨d, hd⟩ := min_distance_isSome
        ⟨pos, ⟨pos.x + dir.x, pos.y + dir.y⟩⟩ perim hperim
      set ff := linear_flow_factor p.gradient_thickness p.max_flow p.min_flow d with hff
      obtain ⟨ls, hls, hlsm⟩ := feedEmitLines_some_ok
        ((fstep (decide (p.hotend_max_flow < fl * ff)) flag).1)
        (linear_loop_feedF p eps ff) sp
      obtain ⟨flag', rest, endPos, hloop, hend, hmoves⟩ :=
        ih ⟨pos.x + dir.x, pos.y + dir.y⟩ ((fstep (decide (p.hotend_max_flow < fl * ff)) flag).2)
      refine ⟨flag', ls ++ OutLine.move (pos.x + dir.x) (pos.y + dir.y) (eps * ff) :: rest,
        endPos, ?_, ?_, ?_⟩
      · unfold linearLoop
        dsimp only
        rw [hd]
        dsimp only [ofOption, Bind.bind, Except.bind]
        rw [← hff, hls]
        dsimp only [Bind.bind, Except.bind]
        rw [hloop]
      · rw [hend, stepPoint_shift]
      · rw [movesOf_append, hlsm, List.nil_append]
        show (⟨pos.x + dir.x, pos.y + dir.y⟩, eps * ff) :: movesOf rest = _
        rw [hmoves, List.range_succ_eq_map, List.map_cons, List.map_map]
        congr 1
        · rw [show (0 : ℕ) + 1 = 1 from rfl, stepPoint_zero]
          have h1 : stepPoint pos dir 1 = ⟨pos.x + dir.x, pos.y + dir.y⟩ := by
            unfold stepPoint
            congr 1 <;> (push_cast; ring)
          rw [h1]
          unfold linearSubFF
          rw [hd]
        · refine List.map_congr_left (fun k _ => ?_)
          dsimp only [Function.comp]
          rw [stepPoint_shift, stepPoint_shift]

end GradientInfill

namespace GradientInfill

theorem floor_steps_mul_le (L u : ℝ) (hL : 0 < L) (hu : 0 < u) :
    ((⌊L / u⌋.toNat : ℕ) : ℝ) * u ≤ L := by
  have h0 : (0 : ℤ) ≤ ⌊L / u⌋ := Int.floor_nonneg.mpr (div_pos hL hu).le
  have hc : ((⌊L / u⌋.toNat : ℕ) : ℝ) = ((⌊L / u⌋ : ℤ) : ℝ) := by
    rw [← Int.cast_natCast, Int.toNat_of_nonneg h0]
  rw [hc]
  calc ((⌊L / u⌋ : ℤ) : ℝ) * u ≤ (L / u) * u :=
        mul_le_mul_of_nonneg_right (Int.floor_le _) hu.le
    _ = L := div_mul_cancel₀ L (ne_of_gt hu)

/-- C2 (amended): for a LINEAR infill move from `lastP` to `cur` of positive
geometric length `L`, positive discretization length `u`, bound infill
locals and a parsed extrusion value `E` (`OrcaGradientInfill.py` lines
193-259): if `steps = L/u ≥ 2` the handler succeeds, ends at
`lastP + ⌊steps⌋·dir`, and its emitted moves are exactly `⌊steps⌋`
sub-moves, the `k`-th ending at `lastP + (k+1)·dir` and carrying extrusion
`(E/steps)` scaled by that sub-segment's own flow factor, followed by one
final move ending exactly at `cur` carrying extrusion
`((L − ⌊steps⌋·u)/L) · E · max_flow/100`; each full sub-move has geometric
length `u`, the final partial one has length `L − ⌊steps⌋·u`, and the
lengths sum to `L` exactly (hence within the 1e-6 mm tolerance).  If
`steps < 2` the move is rebuilt as a single line carrying `E · max_flow/100`
(preceded by a feed override when over the hotend limit) and the position
is left to be updated by the caller.  The claim's unqualified "for every
LINEAR-pattern infill move" fails for zero-length moves, which raise
`ZeroDivisionError` (see the counterexample). -/
theorem C2_subdivision (p : Params) (perim : List Segment) (lastP cur : Point2D)
    (is_old : Bool) (sp : Line) (fl E : ℝ) (splitLine : List Line)
    (hperim : perim ≠ [])
    (hE : findExtrusionLength splitLine = .ok (some E))
    (hu : 0 < p.gradientDiscretizationLength)
    (hL : 0 < get_points_distance lastP cur) :
    (2 ≤ get_points_distance lastP cur / p.gradientDiscretizationLength →
      ∃ (flag' : Bool) (out : List OutLine),
        orcaLinear p perim lastP is_old (some sp) (some false) (some fl) cur splitLine =
          .ok (stepPoint lastP (linearDir lastP cur p.gradientDiscretizationLength)
                 (⌊get_points_distance lastP cur / p.gradientDiscretizationLength⌋.toNat),
               flag', some false, some fl, out) ∧
        movesOf out =
          (List.range (⌊get_points_distance lastP cur / p.gradientDiscretizationLength⌋.toNat)).map
            (fun k =>
              (stepPoint lastP (linearDir lastP cur p.gradientDiscretizationLength) (k + 1),
               E / (get_points_distance lastP cur / p.gradientDiscretizationLength) *
                 linearSubFF p perim
                   (stepPoint lastP (linearDir lastP cur p.gradientDiscretizationLength) k)
                   (linearDir lastP cur p.gradientDiscretizationLength))) ++
          [(cur,
            (get_points_distance lastP cur -
              (⌊get_points_distance lastP cur / p.gradientDiscretizationLength⌋.toNat : ℝ) *
                p.gradientDiscretizationLength) / get_points_distance lastP cur *
              E * p.max_flow / 100)] ∧
        (∀ k : ℕ,
          get_points_distance
            (stepPoint lastP (linearDir lastP cur p.gradientDiscretizationLength) k)
            (stepPoint lastP (linearDir lastP cur p.gradientDiscretizationLength) (k + 1)) =
          p.gradientDiscretizationLength) ∧
        get_points_distance
            (stepPoint lastP (linearDir lastP cur p.gradientDiscretizationLength)
              (⌊get_points_distance lastP cur / p.gradientDiscretizationLength⌋.toNat)) cur =
          get_points_distance lastP cur -
            (⌊get_points_distance lastP cur / p.gradientDiscretizationLength⌋.toNat : ℝ) *
              p.gradientDiscretizationLength ∧
        ((⌊get_points_distance lastP cur / p.gradientDiscretizationLength⌋.toNat : ℝ) *
            p.gradientDiscretizationLength +
          get_points_distance
            (stepPoint lastP (linearDir lastP cur p.gradientDiscretizationLength)
              (⌊get_points_distance lastP cur / p.gradientDiscretizationLength⌋.toNat)) cur =
          get_points_distance lastP cur)) ∧
    (get_points_distance lastP cur / p.gradientDiscretizationLength < 2 →
      orcaLinear p perim lastP is_old (some sp) (some false) (some fl) cur splitLine =
        .ok (lastP, is_old, some false, some fl,
          if p.hotend_max_flow < fl * p.max_flow / 100 then
            [OutLine.feedF (linear_nosplit_feedF p E
                (get_points_distance lastP cur / p.gradientDiscretizationLength)),
             OutLine.rebuilt splitLine (E * p.max_flow / 100)]
          else [OutLine.rebuilt splitLine (E * p.max_flow / 100)])) := by
  have hu0 : ¬ p.gradientDiscretizationLength = 0 := ne_of_gt hu
  have hs0 : ¬ get_points_distance lastP cur / p.gradientDiscretizationLength = 0 :=
    ne_of_gt (div_pos hL hu)
  constructor
  · intro h2
    have hfn := floor_steps_mul_le (get_points_distance lastP cur)
      p.gradientDiscretizationLength hL hu
    obtain ⟨flag', out, endPos, hloop, hend, hmoves⟩ :=
      linearLoop_moves orca_feed_step p perim hperim fl sp
        (E / (get_points_distance lastP cur / p.gradientDiscretizationLength))
        (linearDir lastP cur p.gradientDiscretizationLength)
        (⌊get_points_distance lastP cur / p.gradientDiscretizationLength⌋.toNat) lastP is_old
    unfold linearDir at hloop
    have hrem := stepPoint_remainder_dist lastP cur p.gradientDiscretizationLength
      (⌊get_points_distance lastP cur / p.gradientDiscretizationLength⌋.toNat) hL hfn
    have hrun : orcaLinear p perim lastP is_old (some sp) (some false) (some fl) cur splitLine =
        .ok (endPos, flag', some false, some fl,
          out ++ (if p.hotend_max_flow < fl * p.max_flow / 100 then
            [OutLine.feedF (linear_remainder_feedF p E (get_points_distance lastP cur)),
             OutLine.move cur.x cur.y (get_points_distance endPos cur /
               get_points_distance lastP cur * E * p.max_flow / 100)]
          else
            [OutLine.move cur.x cur.y (get_points_distance endPos cur /
               get_points_distance lastP cur * E * p.max_flow / 100)])) := by
      unfold orcaLinear linearHandler
      rw [hE]
      dsimp only [Bind.bind, Except.bind]
      rw [if_neg hu0]
      dsimp only [ofOption, Bind.bind, Except.bind]
      rw [if_neg hs0]
      rw [if_pos h2]
      rw [hloop]
    rw [hend] at hrun
    rw [hrem] at hrun
    refine ⟨flag', _, hrun, ?_, fun k => stepPoint_consecutive_dist lastP cur
      p.gradientDiscretizationLength k hL hu.le, hrem, by rw [hrem]; ring⟩
    rw [movesOf_append, hmoves]
    congr 1
    split <;> rfl
  · intro hlt
    unfold orcaLinear linearHandler
    rw [hE]
    dsimp only [Bind.bind, Except.bind]
    rw [if_neg hu0]
    dsimp only [ofOption, Bind.bind, Except.bind]
    rw [if_neg hs0]
    rw [if_neg (not_le.mpr hlt)]

end GradientInfill

namespace GradientInfill

/-- Parameters of the concrete LINEAR subdivision runs: LINEAR pattern,
`max_flow` 550, `min_flow` 50, `gradient_thickness` 20, discretization
length 5, `hotend_max_flow` 20, filament diameter 2. -/
noncomputable def c2Params : Params := ⟨.LINEAR, 550, 50, 20, 5, 20, 2, true⟩

/-- A one-segment wall set for the concrete LINEAR subdivision runs. -/
noncomputable def c2Perim : List Segment := [⟨⟨0, 100⟩, ⟨100, 100⟩⟩]

/-- The split infill line of the concrete LINEAR subdivision runs. -/
def c2Split : List Line := ["G1".toList, "X12".toList, "Y0".toList, "E5".toList]

/-- Counterexample to the unqualified "for every LINEAR-pattern infill
move": on a zero-length move (`currentPosition = lastPosition`) the claim
demands `steps = 0 < 2`, hence a single emitted move scaled by
`max_flow/100` — but the source divides `extrusionLength` by the zero
`segmentSteps` (`OrcaGradientInfill.py` line 199) and the run raises an
uncaught `ZeroDivisionError` instead. -/
theorem C2_counterexample_zero_length :
    orcaLinear c2Params c2Perim ⟨0, 0⟩ false (some ("500".toList)) (some false) (some 1)
        ⟨0, 0⟩ c2Split = .error PyErr.zeroDivErr := by
  have hgd : get_points_distance (⟨0, 0⟩ : Point2D) ⟨0, 0⟩ = 0 := by
    unfold get_points_distance
    dsimp only
    rw [show ((0:ℝ) - 0) ^ 2 + ((0:ℝ) - 0) ^ 2 = 0 from by norm_num]
    exact Real.sqrt_zero
  unfold orcaLinear linearHandler
  rw [show findExtrusionLength c2Split = .ok (some ((digitsVal ['5'] : ℚ) : ℝ)) from rfl]
  dsimp only [Bind.bind, Except.bind]
  rw [if_neg (show ¬ c2Params.gradientDiscretizationLength = 0 from by
    rw [show c2Params.gradientDiscretizationLength = (5:ℝ) from rfl]
    norm_num)]
  dsimp only [ofOption, Bind.bind, Except.bind]
  rw [if_pos (show get_points_distance (⟨0, 0⟩ : Point2D) ⟨0, 0⟩ /
      c2Params.gradientDiscretizationLength = 0 from by rw [hgd]; simp)]

/-- Witness for the subdivision theorem on a concrete run: a 12 mm move
with 5 mm discretization gives `steps = 2.4`, two full sub-moves and the
remainder, three emitted moves in all. -/
theorem C2_witness :
    c2Perim ≠ [] ∧
    findExtrusionLength c2Split = .ok (some ((5 : ℚ) : ℝ)) ∧
    (0:ℝ) < c2Params.gradientDiscretizationLength ∧
    (0:ℝ) < get_points_distance ⟨0, 0⟩ ⟨12, 0⟩ ∧
    2 ≤ get_points_distance ⟨0, 0⟩ ⟨12, 0⟩ / c2Params.gradientDiscretizationLength ∧
    ∃ (flag' : Bool) (out : List OutLine),
      orcaLinear c2Params c2Perim ⟨0, 0⟩ false (some ("500".toList)) (some false) (some 1)
          ⟨12, 0⟩ c2Split =
        .ok (stepPoint ⟨0, 0⟩
              (linearDir ⟨0, 0⟩ ⟨12, 0⟩ c2Params.gradientDiscretizationLength)
              ⌊get_points_distance ⟨0, 0⟩ ⟨12, 0⟩ /
                c2Params.gradientDiscretizationLength⌋.toNat,
             flag', some false, some 1, out) ∧
      (movesOf out).length =
        ⌊get_points_distance ⟨0, 0⟩ ⟨12, 0⟩ /
          c2Params.gradientDiscretizationLength⌋.toNat + 1 := by
  have hp : c2Perim ≠ [] := by simp [c2Perim]
  have he : findExtrusionLength c2Split = .ok (some ((5 : ℚ) : ℝ)) := by
    have h : findExtrusionLength c2Split = .ok (some ((digitsVal ['5'] : ℚ) : ℝ)) := rfl
    rw [h, show digitsVal ['5'] = 5 from by decide]
    norm_num
  have hu : (0:ℝ) < c2Params.gradientDiscretizationLength := by
    rw [show c2Params.gradientDiscretizationLength = (5:ℝ) from rfl]
    norm_num
  have h12 : get_points_distance (⟨0, 0⟩ : Point2D) ⟨12, 0⟩ = 12 := by
    unfold get_points_distance
    dsimp only
    rw [show ((0:ℝ) - 12) ^ 2 + ((0:ℝ) - 0) ^ 2 = 12 ^ 2 from by norm_num,
      Real.sqrt_sq (by norm_num)]
  have hl : (0:ℝ) < get_points_distance ⟨0, 0⟩ ⟨12, 0⟩ := by
    rw [h12]
    norm_num
  have h2 : 2 ≤ get_points_distance ⟨0, 0⟩ ⟨12, 0⟩ /
      c2Params.gradientDiscretizationLength := by
    rw [h12, show c2Params.gradientDiscretizationLength = (5:ℝ) from rfl]
    norm_num
  obtain ⟨flag', out, hrun, hmoves, -⟩ :=
    (C2_subdivision c2Params c2Perim ⟨0, 0⟩ ⟨12, 0⟩ false ("500".toList) 1 ((5 : ℚ) : ℝ)
      c2Split hp he hu hl).1 h2
  refine ⟨hp, he, hu, hl, h2, flag', out, hrun, ?_⟩
  rw [hmoves]
  simp

end GradientInfill
